import Mathlib

/-!
# ArduinoOcpp facade (`src/ArduinoOcpp.cpp`)

A shallow embedding of the facade functions of `ArduinoOcpp.cpp`.  The facade
is glue code over the classes `OcppEngine`, `OcppModel`, `ConnectorStatus`,
`Transaction`, ... which are declared in other files.  The globals of the
namespace `ArduinoOcpp::Facade` become the record `Facade`; every facade
function becomes a function from the old `Facade` (and its arguments) to its
return value and the new `Facade`.

* Data that the facade reads or writes through trivial accessors
  (`getTransaction`, `setIdTag`, `getStartRpcSync().isRequested()`, the sampler
  setters, ...) is a record field.
* Behaviour of the other classes (`beginSession`, `endSession`,
  `initiateOperation`, `OcppEngine::loop`, ...) and constants of other headers
  (`IDTAG_LEN_MAX`) are fields of the record `Env`; the facade functions and
  the general theorems are stated for an arbitrary `Env`.  `Sample.env` is one
  environment, written after the spec, in which the facade is evaluated on
  concrete inputs.
* `Facade.calls` is a ghost log: the facade functions append to it the calls
  they make to `getConnectorStatus`, `beginSession`, `endSession` and
  `initiateOperation`, in program order.
-/

namespace ArduinoOcpp

/-! ## C values -/

/-- The characters of a C string before its terminating NUL.  A `const char *`
argument is an `Option CStr`, `none` being the null pointer. -/
abbrev CStr := List Char

/-- The C library function `strnlen`: the length of the string, but at most
`maxlen`. -/
def strnlen (s : CStr) (maxlen : Nat) : Nat :=
  min s.length maxlen

/-- A `std::function` value or listener: `none` is the empty function,
`some n` is the host callback number `n`. -/
abbrev Callback := Option Nat

/-- A `float` that is only stored and passed on. -/
abbrev CFloat := Rat

/-! ## Data model -/

/-- Modelled from the spec: the declaration of the class `Timeout` is missing;
the spec (4.2) names the variants fixed duration, suppressed and hybrid. -/
inductive Timeout where
  | FixedTimeout (duration : Nat)
  | SuppressedTimeout
  | Hybrid (duration : Nat)
  deriving DecidableEq, Repr

/-- A reference to a `Transaction` object (a `std::shared_ptr<Transaction>`):
the address of the object in `OcppModel.transactions`. -/
abbrev TxRef := Nat

/-- Modelled from the spec: the declaration of the class `Transaction` is
missing; the fields are those of the spec data model (3, Transaction).
`startRequested` is what `getStartRpcSync().isRequested()` reads. -/
structure Transaction where
  idTag : Option CStr := none
  transactionId : Option Int := none
  startRequested : Bool := false
  startConfirmed : Bool := false
  stopRequested : Bool := false
  stopConfirmed : Bool := false
  stopIdTag : Option CStr := none
  stopReason : Option CStr := none
  deriving DecidableEq, Repr

/-- Modelled from the spec: the availability of a Connector (3, Connector). -/
inductive Availability where
  | Operative
  | Inoperative
  deriving DecidableEq, Repr

/-- Modelled from the spec: the declaration of the class `ConnectorStatus` is
missing; the fields are those of the spec data model (3, Connector), named
after the setters the facade calls. -/
structure ConnectorStatus where
  availability : Availability := Availability.Operative
  transaction : Option TxRef := none
  connectorPluggedSampler : Callback := none
  evRequestsEnergySampler : Callback := none
  connectorEnergizedSampler : Callback := none
  connectorErrorCodeSamplers : List Callback := []
  onUnlockConnector : Callback := none
  connectorLock : Callback := none
  txBasedMeterUpdate : Callback := none
  deriving DecidableEq, Repr

/-- The payload of an operation created by the facade. -/
inductive OcppMessage where
  | BootNotification (payload : Option (List (String × CStr)))
  | Authorize (idTag : CStr)
  | StartTransaction (transaction : TxRef)
  | StopTransaction (transaction : TxRef)
  deriving DecidableEq, Repr

/-- Modelled from the spec: the declaration of the class `OcppOperation` is
missing; an Operation holds its payload, zero-or-one listener of each kind and
a timeout policy (3, Operation). -/
structure OcppOperation where
  message : OcppMessage
  onReceiveConfListener : Callback := none
  onAbortListener : Callback := none
  onTimeoutListener : Callback := none
  onReceiveErrorListener : Callback := none
  timeout : Option Timeout := none
  deriving DecidableEq, Repr

/-- Modelled from the spec: the function `makeOcppOperation` is missing; a fresh
Operation around a message, with no listener, all of them being optional (3,
Operation). -/
def makeOcppOperation (msg : OcppMessage) : OcppOperation :=
  { message := msg }

/-- The statement `if (l) op->setOn...Listener(l);` of the facade. -/
def setListenerIf (l current : Callback) : Callback :=
  match l with
  | some f => some f
  | none => current

/-- The four `if (listener) op->setOn...Listener(listener)` statements and the
`if (timeout) ... else ...` statement shared by `bootNotification`,
`authorize`, `startTransaction` and `stopTransaction`. -/
def configureOperation (op : OcppOperation) (onConf onAbort onTimeout onError : Callback)
    (timeout : Option Timeout) (dflt : Timeout) : OcppOperation :=
  let op := { op with onReceiveConfListener := setListenerIf onConf op.onReceiveConfListener }
  let op := { op with onAbortListener := setListenerIf onAbort op.onAbortListener }
  let op := { op with onTimeoutListener := setListenerIf onTimeout op.onTimeoutListener }
  let op := { op with onReceiveErrorListener := setListenerIf onError op.onReceiveErrorListener }
  match timeout with
  | some t => { op with timeout := some t }
  | none => { op with timeout := some dflt }

/-- Modelled from the spec: the declaration of the sampler classes is missing; a
sampler is a function returning the current reading (6), here with the
properties that `addMeterValueInput` sets. -/
structure SampledValueSampler where
  measurand : Option CStr := none
  unit : Option CStr := none
  location : Option CStr := none
  phase : Option CStr := none
  value : Callback := none
  deriving DecidableEq, Repr

/-- Modelled from the spec: the declaration of the class `MeteringService` is
missing; metering is an external collaborator (1), here a record of what the
facade hands to it. -/
structure MeteringService where
  numConnectors : Nat := 0
  meterValueSamplers : List (Nat × SampledValueSampler) := []
  energySamplers : List (Nat × Callback) := []
  powerSamplers : List (Nat × Callback) := []
  deriving DecidableEq, Repr

/-- Modelled from the spec: the declaration of the class `SmartChargingService`
is missing; smart charging is an external collaborator (1), here a record of
what the facade hands to it. -/
structure SmartChargingService where
  chargeLimit : CFloat := 0
  V_eff : CFloat := 0
  numConnectors : Nat := 0
  fsOpt : Nat := 0
  onLimitChange : Callback := none
  deriving DecidableEq, Repr

/-- Modelled from the spec: the declaration of the class
`ChargePointStatusService` is missing; it holds the status predicate that the
control loop calls on every tick (4.4), here the field `booted` that
`isBooted()` reports, and the two reset hooks that the facade sets. -/
structure ChargePointStatusService where
  booted : Bool := false
  preReset : Callback := none
  executeReset : Callback := none
  deriving DecidableEq, Repr

/-- Modelled from the spec: the declaration of the class `TransactionStore` is
missing; a bounded registry of Transactions per connector (3, Transaction
Store): the capacity per connector and the stored (connector, Transaction)
entries. -/
structure TransactionStore where
  capacity : Nat := 0
  entries : List (Nat × TxRef) := []
  deriving DecidableEq, Repr

/-- Modelled from the spec: the declaration of the class `OcppModel` is missing;
it holds the Connector table (index 0 is the whole charge point; 3), the
`Transaction` objects, addressed by reference, the Transaction Store and the
optional service slots (9) that the facade sets. -/
structure OcppModel where
  connectors : List ConnectorStatus := []
  transactions : TxRef → Transaction := fun _ => {}
  transactionStore : Option TransactionStore := none
  chargePointStatusService : Option ChargePointStatusService := none
  heartbeatService : Bool := false
  firmwareService : Bool := false
  diagnosticsService : Bool := false
  meteringService : Option MeteringService := none
  smartChargingService : Option SmartChargingService := none

/-- Modelled from the spec: the declaration of the class `OcppEngine` is missing;
the Operation Engine owns the in-flight Operations (2); the facade reaches the
model through it and sets its run-tasks flag. -/
structure OcppEngine where
  model : OcppModel := {}
  runOcppTasks : Bool := true
  operations : List OcppOperation := []

/-- Modelled from the spec: the method `OcppModel::getConnectorStatus` is
missing; the lookup of a connector index in the Connector table, with null for
an unknown index (7, 9). -/
def OcppModel.getConnectorStatus (m : OcppModel) (connectorId : Nat) : Option ConnectorStatus :=
  m.connectors[connectorId]?

/-- The connector setters of the facade (`setConnectorPluggedSampler`, ...)
called through the connector pointer: an update of the connector at that index
of the Connector table. -/
def OcppModel.setConnectorStatus (m : OcppModel) (connectorId : Nat) (c : ConnectorStatus) :
    OcppModel :=
  { m with connectors := m.connectors.set connectorId c }

/-- The methods `Transaction::setIdTag`, `setStopIdTag` and `setStopReason`
called through a `shared_ptr`: an update of the object at that address. -/
def OcppModel.updateTransaction (m : OcppModel) (tx : TxRef) (f : Transaction → Transaction) :
    OcppModel :=
  { m with transactions := fun r => if r = tx then f (m.transactions r) else m.transactions r }

/-- A call made by the facade to another class, as recorded in the ghost log. -/
inductive Call where
  | getConnectorStatus (connectorId : Nat)
  | beginSession (connectorId : Nat) (idTag : CStr)
  | endSession (connectorId : Nat) (reason : Option CStr)
  | initiateOperation (op : OcppOperation)
  deriving DecidableEq, Repr

/-- Modelled from the spec: the operation factory is missing; the listener slots
that the `setOn...` functions at the end of the facade set, each optional. -/
structure OperationFactory where
  onSetChargingProfileRequest : Callback := none
  onRemoteStartTransactionSendConf : Callback := none
  onRemoteStopTransactionReceiveRequest : Callback := none
  onRemoteStopTransactionSendConf : Callback := none
  onResetSendConf : Callback := none
  onResetReceiveRequest : Callback := none
  deriving DecidableEq, Repr

/-- Constants and behaviour that `ArduinoOcpp.cpp` takes from other files. -/
structure Env where
  /-- The constant `IDTAG_LEN_MAX`. -/
  IDTAG_LEN_MAX : Nat
  /-- The default of the parameter `connectorId` of `beginTransaction`. -/
  defaultConnectorId : Nat
  /-- The method `ConnectorStatus::beginSession(idTag)` of connector `connectorId`. -/
  beginSession : OcppModel → Nat → CStr → OcppModel
  /-- The method `ConnectorStatus::endSession(reason)` of connector `connectorId`. -/
  endSession : OcppModel → Nat → Option CStr → OcppModel
  /-- The method `ConnectorStatus::getSessionIdTag()`. -/
  getSessionIdTag : OcppModel → Nat → Option CStr
  /-- The method `ConnectorStatus::isTransactionRunning()`. -/
  isTransactionRunning : OcppModel → Nat → Bool
  /-- The method `ConnectorStatus::ocppPermitsCharge()`. -/
  ocppPermitsCharge : OcppModel → Nat → Bool
  /-- The method `ConnectorStatus::getTransactionId()`. -/
  getTransactionId : OcppModel → Nat → Int
  /-- The method `Transaction::isRunning()`. -/
  isRunning : Transaction → Bool
  /-- The method `OcppEngine::initiateOperation`. -/
  initiateOperation : OcppEngine → OcppOperation → OcppEngine
  /-- The method `OcppEngine::loop`. -/
  loop : OcppEngine → OcppEngine
  /-- The constructor of `OcppEngine`. -/
  newOcppEngine : Option Nat → OcppEngine
  /-- The constructor of `ChargePointStatusService`, called with the number of
  connectors: the service and the Connector table it sets up. -/
  newChargePointStatusService : Nat → ChargePointStatusService × List ConnectorStatus
  /-- The constructor of `TransactionStore`. -/
  newTransactionStore : Nat → Option Nat → TransactionStore
  /-- The constructor of `MeteringService`. -/
  newMeteringService : Nat → Option Nat → MeteringService
  /-- The function `makeDefaultResetFn` where the platform has one. -/
  makeDefaultResetFn : Callback
  /-- The function `simpleOcppFactory_deinitialize`. -/
  simpleOcppFactory_deinitialize : OperationFactory → OperationFactory
  /-- The function `makeDefaultFilesystemAdapter`. -/
  makeDefaultFilesystemAdapter : Nat → Option Nat
  /-- The method `MeteringService::addMeterValueSampler`. -/
  addMeterValueSampler : MeteringService → Nat → SampledValueSampler → MeteringService
  /-- The method `MeteringService::setEnergySampler`. -/
  setEnergySampler : MeteringService → Nat → Callback → MeteringService
  /-- The method `MeteringService::setPowerSampler`. -/
  setPowerSampler : MeteringService → Nat → Callback → MeteringService

/-- The globals of the namespace `ArduinoOcpp::Facade`, with their initial
values, the listener slots of the operation factory, and the ghost log. -/
structure Facade where
  ocppEngine : Option OcppEngine := none
  filesystem : Option Nat := none
  fileSystemOpt : Nat := 0
  numConnectors : Nat := 0
  voltage_eff : CFloat := 230
  OCPP_booted : Bool := false
  factory : OperationFactory := {}
  calls : List Call := []

/-- The state of the facade when the program starts. -/
def Facade.initial : Facade := {}

/-- Appends a call to the ghost log. -/
def Facade.record (s : Facade) (c : Call) : Facade :=
  { s with calls := s.calls ++ [c] }

/-! ## Facade functions -/

/-- The facade function `authorize`. -/
def authorize (E : Env) (s : Facade) (idTag : Option CStr)
    (onConf onAbort onTimeout onError : Callback) (timeout : Option Timeout) : Facade :=
  match s.ocppEngine with
  | none => s
  | some engine =>
    match idTag with
    | none => s
    | some t =>
      if strnlen t (E.IDTAG_LEN_MAX + 2) > E.IDTAG_LEN_MAX then s
      else
        let authorize := makeOcppOperation (OcppMessage.Authorize t)
        let authorize := configureOperation authorize onConf onAbort onTimeout onError timeout
          (Timeout.FixedTimeout 20000)
        let s := s.record (Call.initiateOperation authorize)
        { s with ocppEngine := some (E.initiateOperation engine authorize) }

/-- The facade function `beginTransaction`. -/
def beginTransaction (E : Env) (s : Facade) (idTag : Option CStr) (connectorId : Nat) :
    Bool × Facade :=
  match s.ocppEngine with
  | none => (false, s)
  | some engine =>
    match idTag with
    | none => (false, s)
    | some t =>
      if strnlen t (E.IDTAG_LEN_MAX + 2) > E.IDTAG_LEN_MAX then (false, s)
      else
        let s := s.record (Call.getConnectorStatus connectorId)
        match engine.model.getConnectorStatus connectorId with
        | none => (false, s)
        | some _ =>
          let s := s.record (Call.beginSession connectorId t)
          let engine := { engine with model := E.beginSession engine.model connectorId t }
          (true, { s with ocppEngine := some engine })

/-- The constant `OCPP_ID_OF_CP`. -/
def OCPP_ID_OF_CP : Nat := 0

/-- The constant `OCPP_ID_OF_CONNECTOR`. -/
def OCPP_ID_OF_CONNECTOR : Nat := 1

/-- The statement `ocppEngine->initiateOperation(std::move(op))`.  The facade
reaches it only behind its null check of `ocppEngine`. -/
def Facade.initiateOperation (E : Env) (s : Facade) (op : OcppOperation) : Facade :=
  match s.ocppEngine with
  | none => s
  | some engine =>
    let s := s.record (Call.initiateOperation op)
    { s with ocppEngine := some (E.initiateOperation engine op) }

/-- The expression `connector->getTransaction()` for the connector pointer that
was obtained for `connectorId`. -/
def Facade.connectorTransaction (s : Facade) (connectorId : Nat) : Option TxRef :=
  match s.ocppEngine with
  | none => none
  | some engine =>
    match engine.model.getConnectorStatus connectorId with
    | none => none
    | some connector => connector.transaction

/-- The facade function `endTransaction`. -/
def endTransaction (E : Env) (s : Facade) (reason : Option CStr) (connectorId : Nat) :
    Bool × Facade :=
  match s.ocppEngine with
  | none => (false, s)
  | some engine =>
    let s := s.record (Call.getConnectorStatus connectorId)
    match engine.model.getConnectorStatus connectorId with
    | none => (false, s)
    | some _ =>
      let res := (E.getSessionIdTag engine.model connectorId).isSome
      let s := s.record (Call.endSession connectorId reason)
      let engine := { engine with model := E.endSession engine.model connectorId reason }
      (res, { s with ocppEngine := some engine })

/-- The facade function `isTransactionRunning`. -/
def isTransactionRunning (E : Env) (s : Facade) (connectorId : Nat) : Bool × Facade :=
  match s.ocppEngine with
  | none => (false, s)
  | some engine =>
    let s := s.record (Call.getConnectorStatus connectorId)
    match engine.model.getConnectorStatus connectorId with
    | none => (false, s)
    | some _ => (E.isTransactionRunning engine.model connectorId, s)

/-- The facade function `ocppPermitsCharge`. -/
def ocppPermitsCharge (E : Env) (s : Facade) (connectorId : Nat) : Bool × Facade :=
  match s.ocppEngine with
  | none => (false, s)
  | some engine =>
    let s := s.record (Call.getConnectorStatus connectorId)
    match engine.model.getConnectorStatus connectorId with
    | none => (false, s)
    | some _ => (E.ocppPermitsCharge engine.model connectorId, s)

/-- The common shape of the setters that look the connector up and call one of
its setters: the null check of `ocppEngine`, `getConnectorStatus`, the null
check of the connector, the setter. -/
def withConnector (s : Facade) (connectorId : Nat) (set : ConnectorStatus → ConnectorStatus) :
    Facade :=
  match s.ocppEngine with
  | none => s
  | some engine =>
    let s := s.record (Call.getConnectorStatus connectorId)
    match engine.model.getConnectorStatus connectorId with
    | none => s
    | some connector =>
      let engine := { engine with model := engine.model.setConnectorStatus connectorId (set connector) }
      { s with ocppEngine := some engine }

/-- The facade function `setConnectorPluggedInput`. -/
def setConnectorPluggedInput (s : Facade) (pluggedInput : Callback) (connectorId : Nat) : Facade :=
  withConnector s connectorId (fun connector => { connector with connectorPluggedSampler := pluggedInput })

/-- The statements `if (!model.getMeteringService()) model.setMeteringSerivce(new
MeteringService(*ocppEngine, numConnectors, filesystem))` followed by
`model.getMeteringService()`. -/
def getOrCreateMeteringService (E : Env) (s : Facade) (model : OcppModel) : MeteringService :=
  match model.meteringService with
  | some ms => ms
  | none => E.newMeteringService s.numConnectors s.filesystem

/-- The facade function `setEnergyMeterInput`. -/
def setEnergyMeterInput (E : Env) (s : Facade) (energyInput : Callback) (connectorId : Nat) :
    Facade :=
  match s.ocppEngine with
  | none => s
  | some engine =>
    let model := engine.model
    let ms := getOrCreateMeteringService E s model
    let mvs : SampledValueSampler :=
      { measurand := some "Energy.Active.Import.Register".toList, unit := some "Wh".toList,
        value := energyInput }
    let ms := E.addMeterValueSampler ms connectorId mvs
    let ms := E.setEnergySampler ms connectorId energyInput
    let engine := { engine with model := { model with meteringService := some ms } }
    { s with ocppEngine := some engine }

/-- The facade function `setPowerMeterInput`. -/
def setPowerMeterInput (E : Env) (s : Facade) (powerInput : Callback) (connectorId : Nat) :
    Facade :=
  match s.ocppEngine with
  | none => s
  | some engine =>
    let model := engine.model
    let ms := getOrCreateMeteringService E s model
    let mvs : SampledValueSampler :=
      { measurand := some "Power.Active.Import".toList, unit := some "W".toList,
        value := powerInput }
    let ms := E.addMeterValueSampler ms connectorId mvs
    let ms := E.setPowerSampler ms connectorId powerInput
    let engine := { engine with model := { model with meteringService := some ms } }
    { s with ocppEngine := some engine }

/-- The facade function `setSmartChargingOutput`. -/
def setSmartChargingOutput (s : Facade) (chargingLimitOutput : Callback) (connectorId : Nat) :
    Facade :=
  match s.ocppEngine with
  | none => s
  | some engine =>
    if connectorId ≠ 1 then s
    else
      let model := engine.model
      let scs : SmartChargingService :=
        match model.smartChargingService with
        | some scs => scs
        | none =>
          { chargeLimit := 11000, V_eff := s.voltage_eff, numConnectors := s.numConnectors,
            fsOpt := s.fileSystemOpt }
      let scs := { scs with onLimitChange := chargingLimitOutput }
      let engine := { engine with model := { model with smartChargingService := some scs } }
      { s with ocppEngine := some engine }

/-- The facade function `setEvReadyInput`. -/
def setEvReadyInput (s : Facade) (evReadyInput : Callback) (connectorId : Nat) : Facade :=
  withConnector s connectorId (fun connector => { connector with evRequestsEnergySampler := evReadyInput })

/-- The facade function `setEvseReadyInput`. -/
def setEvseReadyInput (s : Facade) (evseReadyInput : Callback) (connectorId : Nat) : Facade :=
  withConnector s connectorId (fun connector => { connector with connectorEnergizedSampler := evseReadyInput })

/-- The facade function `addErrorCodeInput`. -/
def addErrorCodeInput (s : Facade) (errorCodeInput : Callback) (connectorId : Nat) : Facade :=
  withConnector s connectorId (fun connector =>
    { connector with connectorErrorCodeSamplers := connector.connectorErrorCodeSamplers ++ [errorCodeInput] })

/-- The facade function `addMeterValueInput` that takes a sampler object. -/
def addMeterValueInput_sampler (E : Env) (s : Facade) (valueInput : SampledValueSampler)
    (connectorId : Nat) : Facade :=
  match s.ocppEngine with
  | none => s
  | some engine =>
    let model := engine.model
    let ms := getOrCreateMeteringService E s model
    let ms := E.addMeterValueSampler ms connectorId valueInput
    let engine := { engine with model := { model with meteringService := some ms } }
    { s with ocppEngine := some engine }

/-- The facade function `addMeterValueInput` that takes a value function, a
measurand, a unit, a location and a phase. -/
def addMeterValueInput (E : Env) (s : Facade) (valueInput : Callback)
    (measurand unit location phase : Option CStr) (connectorId : Nat) : Facade :=
  match s.ocppEngine with
  | none => s
  | some _ =>
    match valueInput with
    | none => s
    | some f =>
      let measurand : CStr :=
        match measurand with
        | some m => m
        | none => "Energy.Active.Import.Register".toList
      let valueSampler : SampledValueSampler :=
        { measurand := some measurand, unit := unit, location := location, phase := phase,
          value := some f }
      addMeterValueInput_sampler E s valueSampler connectorId

/-- The common shape of `setOnResetNotify` and `setOnResetExecute`. -/
def withStatusService (s : Facade) (set : ChargePointStatusService → ChargePointStatusService) :
    Facade :=
  match s.ocppEngine with
  | none => s
  | some engine =>
    match engine.model.chargePointStatusService with
    | none => s
    | some csService =>
      let model := { engine.model with chargePointStatusService := some (set csService) }
      { s with ocppEngine := some { engine with model := model } }

/-- The facade function `setOnResetNotify`. -/
def setOnResetNotify (s : Facade) (onResetNotify : Callback) : Facade :=
  withStatusService s (fun csService => { csService with preReset := onResetNotify })

/-- The facade function `setOnResetExecute`. -/
def setOnResetExecute (s : Facade) (onResetExecute : Callback) : Facade :=
  withStatusService s (fun csService => { csService with executeReset := onResetExecute })

/-- The facade function `setOnUnlockConnectorInOut`. -/
def setOnUnlockConnectorInOut (s : Facade) (onUnlockConnectorInOut : Callback) (connectorId : Nat) :
    Facade :=
  withConnector s connectorId (fun connector => { connector with onUnlockConnector := onUnlockConnectorInOut })

/-- The facade function `setConnectorLockInOut`. -/
def setConnectorLockInOut (s : Facade) (lockConnectorInOut : Callback) (connectorId : Nat) :
    Facade :=
  withConnector s connectorId (fun connector => { connector with connectorLock := lockConnectorInOut })

/-- The facade function `setTxBasedMeterInOut`. -/
def setTxBasedMeterInOut (s : Facade) (txMeterInOut : Callback) (connectorId : Nat) : Facade :=
  withConnector s connectorId (fun connector => { connector with txBasedMeterUpdate := txMeterInOut })

/-- The facade function `isOperative`. -/
def isOperative (s : Facade) (connectorId : Nat) : Bool × Facade :=
  match s.ocppEngine with
  | none => (true, s)
  | some engine =>
    let model := engine.model
    let s := s.record (Call.getConnectorStatus OCPP_ID_OF_CP)
    let chargePoint := model.getConnectorStatus OCPP_ID_OF_CP
    let s := s.record (Call.getConnectorStatus connectorId)
    let connector := model.getConnectorStatus connectorId
    match chargePoint, connector with
    | some chargePoint, some connector =>
      (decide (chargePoint.availability ≠ Availability.Inoperative)
        && decide (connector.availability ≠ Availability.Inoperative), s)
    | _, _ => (true, s)

/-- The facade function `getTransactionId`. -/
def getTransactionId (E : Env) (s : Facade) (connectorId : Nat) : Int × Facade :=
  match s.ocppEngine with
  | none => (-1, s)
  | some engine =>
    let s := s.record (Call.getConnectorStatus connectorId)
    match engine.model.getConnectorStatus connectorId with
    | none => (-1, s)
    | some _ => (E.getTransactionId engine.model connectorId, s)

/-- The facade function `getTransactionIdTag`. -/
def getTransactionIdTag (E : Env) (s : Facade) (connectorId : Nat) : Option CStr × Facade :=
  match s.ocppEngine with
  | none => (none, s)
  | some engine =>
    let s := s.record (Call.getConnectorStatus connectorId)
    match engine.model.getConnectorStatus connectorId with
    | none => (none, s)
    | some _ => (E.getSessionIdTag engine.model connectorId, s)

/-- The facade function `getOcppEngine`. -/
def getOcppEngine (s : Facade) : Option OcppEngine × Facade :=
  match s.ocppEngine with
  | none => (none, s)
  | some engine => (some engine, s)

/-- The facade function `setOnSetChargingProfileRequest`. -/
def setOnSetChargingProfileRequest (s : Facade) (onReceiveReq : Callback) : Facade :=
  { s with factory := { s.factory with onSetChargingProfileRequest := onReceiveReq } }

/-- The facade function `setOnRemoteStartTransactionSendConf`. -/
def setOnRemoteStartTransactionSendConf (s : Facade) (onSendConf : Callback) : Facade :=
  { s with factory := { s.factory with onRemoteStartTransactionSendConf := onSendConf } }

/-- The facade function `setOnRemoteStopTransactionReceiveReq`. -/
def setOnRemoteStopTransactionReceiveReq (s : Facade) (onReceiveReq : Callback) : Facade :=
  { s with factory := { s.factory with onRemoteStopTransactionReceiveRequest := onReceiveReq } }

/-- The facade function `setOnRemoteStopTransactionSendConf`. -/
def setOnRemoteStopTransactionSendConf (s : Facade) (onSendConf : Callback) : Facade :=
  { s with factory := { s.factory with onRemoteStopTransactionSendConf := onSendConf } }

/-- The facade function `setOnResetSendConf`. -/
def setOnResetSendConf (s : Facade) (onSendConf : Callback) : Facade :=
  { s with factory := { s.factory with onResetSendConf := onSendConf } }

/-- The facade function `setOnResetRequest`. -/
def setOnResetRequest (s : Facade) (onReceiveReq : Callback) : Facade :=
  { s with factory := { s.factory with onResetReceiveRequest := onReceiveReq } }

/-- The facade function `startTransaction`. -/
def startTransaction (E : Env) (s : Facade) (idTag : Option CStr)
    (onConf onAbort onTimeout onError : Callback) (timeout : Option Timeout) : Bool × Facade :=
  match s.ocppEngine with
  | none => (false, s)
  | some engine =>
    match idTag with
    | none => (false, s)
    | some t =>
      if strnlen t (E.IDTAG_LEN_MAX + 2) > E.IDTAG_LEN_MAX then (false, s)
      else
        let s := s.record (Call.getConnectorStatus OCPP_ID_OF_CONNECTOR)
        match engine.model.getConnectorStatus OCPP_ID_OF_CONNECTOR with
        | none => (false, s)
        | some connector =>
          -- the `if (transaction) ... else ...` statement: the state after it, and
          -- the transaction to send, `none` where the branch returns false
          let branch : Facade × Option TxRef :=
            match connector.transaction with
            | some transaction =>
              if (engine.model.transactions transaction).startRequested then (s, none)
              else
                let model := engine.model.updateTransaction transaction
                  (fun tx => { tx with idTag := some t })
                ({ s with ocppEngine := some { engine with model := model } }, some transaction)
            | none =>
              let s := (beginTransaction E s (some t) E.defaultConnectorId).2
              (s, s.connectorTransaction OCPP_ID_OF_CONNECTOR)
          let s := branch.1
          match branch.2 with
          | none => (false, s)
          | some transaction =>
            let startTransaction := makeOcppOperation (OcppMessage.StartTransaction transaction)
            let startTransaction := configureOperation startTransaction onConf onAbort onTimeout
              onError timeout Timeout.SuppressedTimeout
            (true, s.initiateOperation E startTransaction)

/-- The facade function `stopTransaction`. -/
def stopTransaction (E : Env) (s : Facade)
    (onConf onAbort onTimeout onError : Callback) (timeout : Option Timeout) : Bool × Facade :=
  match s.ocppEngine with
  | none => (false, s)
  | some engine =>
    let s := s.record (Call.getConnectorStatus OCPP_ID_OF_CONNECTOR)
    match engine.model.getConnectorStatus OCPP_ID_OF_CONNECTOR with
    | none => (false, s)
    | some connector =>
      match connector.transaction with
      | none => (false, s)
      | some transaction =>
        if !E.isRunning (engine.model.transactions transaction) then (false, s)
        else
          let s := s.record (Call.endSession OCPP_ID_OF_CONNECTOR (some "Local".toList))
          let model := E.endSession engine.model OCPP_ID_OF_CONNECTOR (some "Local".toList)
          let model :=
            match (model.transactions transaction).idTag with
            | some idTag => model.updateTransaction transaction (fun tx => { tx with stopIdTag := some idTag })
            | none => model
          let model := model.updateTransaction transaction
            (fun tx => { tx with stopReason := some "Local".toList })
          let s := { s with ocppEngine := some { engine with model := model } }
          let stopTransaction := makeOcppOperation (OcppMessage.StopTransaction transaction)
          let stopTransaction := configureOperation stopTransaction onConf onAbort onTimeout
            onError timeout Timeout.SuppressedTimeout
          (true, s.initiateOperation E stopTransaction)

/-- The facade function `bootNotification` that takes the payload. -/
def bootNotification_payload (E : Env) (s : Facade) (payload : Option (List (String × CStr)))
    (onConf onAbort onTimeout onError : Callback) (timeout : Option Timeout) : Facade :=
  match s.ocppEngine with
  | none => s
  | some _ =>
    let bootNotification := makeOcppOperation (OcppMessage.BootNotification payload)
    let bootNotification := configureOperation bootNotification onConf onAbort onTimeout
      onError timeout Timeout.SuppressedTimeout
    s.initiateOperation E bootNotification

/-- The facade function `bootNotification` that takes the model and the vendor
of the charge point. -/
def bootNotification (E : Env) (s : Facade) (chargePointModel chargePointVendor : CStr)
    (onConf onAbort onTimeout onError : Callback) (timeout : Option Timeout) : Facade :=
  match s.ocppEngine with
  | none => s
  | some _ =>
    let credentials : List (String × CStr) :=
      [("chargePointModel", chargePointModel), ("chargePointVendor", chargePointVendor)]
    bootNotification_payload E s (some credentials) onConf onAbort onTimeout onError timeout

/-- The facade function `OCPP_initialize` that takes the socket (the other one
sets up a web socket and calls this one).  The socket and the call of
`configuration_init` have no counterpart in `Facade`.  `unsigned int` has 32
bits. -/
def OCPP_initialize (E : Env) (s : Facade) (V_eff : CFloat) (num_connectors : Nat) (fsOpt : Nat) :
    Facade :=
  match s.ocppEngine with
  | some _ => s
  | none =>
    let numConnectors := (num_connectors + 1) % 2 ^ 32
    let filesystem := E.makeDefaultFilesystemAdapter fsOpt
    let s := { s with voltage_eff := V_eff, fileSystemOpt := fsOpt, numConnectors := numConnectors,
                      filesystem := filesystem }
    let engine := E.newOcppEngine filesystem
    let model := engine.model
    let model := { model with transactionStore := some (E.newTransactionStore numConnectors filesystem) }
    let cs := E.newChargePointStatusService numConnectors
    let model := { model with chargePointStatusService := some cs.1, connectors := cs.2 }
    let model := { model with heartbeatService := true }
    let model := { model with firmwareService := true }
    let model := { model with diagnosticsService := true }
    let model :=
      match cs.1.executeReset with
      | some _ => model
      | none =>
        { model with chargePointStatusService := some { cs.1 with executeReset := E.makeDefaultResetFn } }
    { s with ocppEngine := some { engine with model := model, runOcppTasks := false } }

/-- The facade function `OCPP_deinitialize`. -/
def OCPP_deinitialize (E : Env) (s : Facade) : Facade :=
  { s with ocppEngine := none, factory := E.simpleOcppFactory_deinitialize s.factory,
           fileSystemOpt := 0, voltage_eff := 230, OCPP_booted := false }

/-- The facade function `OCPP_loop`. -/
def OCPP_loop (E : Env) (s : Facade) : Facade :=
  match s.ocppEngine with
  | none => s
  | some engine =>
    let engine := E.loop engine
    let s := { s with ocppEngine := some engine }
    if !s.OCPP_booted then
      match engine.model.chargePointStatusService with
      | some csService =>
        if csService.booted then
          { s with OCPP_booted := true, ocppEngine := some { engine with runOcppTasks := true } }
        else s
      | none =>
        { s with OCPP_booted := true, ocppEngine := some { engine with runOcppTasks := true } }
    else s

/-- What `csService->isBooted()` reports for the charge point status service of
the engine; nothing is reported (false) where the model has no such service. -/
def reportsBooted (engine : OcppEngine) : Bool :=
  match engine.model.chargePointStatusService with
  | none => false
  | some csService => csService.booted

/-! ## The facade as a transition system -/

/-- A call of a facade function by the host application, with its arguments. -/
inductive FacadeCall where
  | OCPP_initialize (V_eff : CFloat) (num_connectors : Nat) (fsOpt : Nat)
  | OCPP_deinitialize
  | OCPP_loop
  | bootNotification (chargePointModel chargePointVendor : CStr)
      (onConf onAbort onTimeout onError : Callback) (timeout : Option Timeout)
  | bootNotification_payload (payload : Option (List (String × CStr)))
      (onConf onAbort onTimeout onError : Callback) (timeout : Option Timeout)
  | authorize (idTag : Option CStr) (onConf onAbort onTimeout onError : Callback)
      (timeout : Option Timeout)
  | beginTransaction (idTag : Option CStr) (connectorId : Nat)
  | endTransaction (reason : Option CStr) (connectorId : Nat)
  | isTransactionRunning (connectorId : Nat)
  | ocppPermitsCharge (connectorId : Nat)
  | setConnectorPluggedInput (pluggedInput : Callback) (connectorId : Nat)
  | setEnergyMeterInput (energyInput : Callback) (connectorId : Nat)
  | setPowerMeterInput (powerInput : Callback) (connectorId : Nat)
  | setSmartChargingOutput (chargingLimitOutput : Callback) (connectorId : Nat)
  | setEvReadyInput (evReadyInput : Callback) (connectorId : Nat)
  | setEvseReadyInput (evseReadyInput : Callback) (connectorId : Nat)
  | addErrorCodeInput (errorCodeInput : Callback) (connectorId : Nat)
  | addMeterValueInput (valueInput : Callback) (measurand unit location phase : Option CStr)
      (connectorId : Nat)
  | addMeterValueInput_sampler (valueInput : SampledValueSampler) (connectorId : Nat)
  | setOnResetNotify (onResetNotify : Callback)
  | setOnResetExecute (onResetExecute : Callback)
  | setOnUnlockConnectorInOut (onUnlockConnectorInOut : Callback) (connectorId : Nat)
  | setConnectorLockInOut (lockConnectorInOut : Callback) (connectorId : Nat)
  | setTxBasedMeterInOut (txMeterInOut : Callback) (connectorId : Nat)
  | isOperative (connectorId : Nat)
  | getTransactionId (connectorId : Nat)
  | getTransactionIdTag (connectorId : Nat)
  | getOcppEngine
  | setOnSetChargingProfileRequest (onReceiveReq : Callback)
  | setOnRemoteStartTransactionSendConf (onSendConf : Callback)
  | setOnRemoteStopTransactionReceiveReq (onReceiveReq : Callback)
  | setOnRemoteStopTransactionSendConf (onSendConf : Callback)
  | setOnResetSendConf (onSendConf : Callback)
  | setOnResetRequest (onReceiveReq : Callback)
  | startTransaction (idTag : Option CStr) (onConf onAbort onTimeout onError : Callback)
      (timeout : Option Timeout)
  | stopTransaction (onConf onAbort onTimeout onError : Callback) (timeout : Option Timeout)
  deriving DecidableEq

/-- The state of the facade after one call. -/
def step (E : Env) (s : Facade) : FacadeCall → Facade
  | FacadeCall.OCPP_initialize V_eff num_connectors fsOpt => OCPP_initialize E s V_eff num_connectors fsOpt
  | FacadeCall.OCPP_deinitialize => OCPP_deinitialize E s
  | .OCPP_loop => OCPP_loop E s
  | .bootNotification m v onConf onAbort onTimeout onError timeout =>
    bootNotification E s m v onConf onAbort onTimeout onError timeout
  | .bootNotification_payload p onConf onAbort onTimeout onError timeout =>
    bootNotification_payload E s p onConf onAbort onTimeout onError timeout
  | .authorize idTag onConf onAbort onTimeout onError timeout =>
    authorize E s idTag onConf onAbort onTimeout onError timeout
  | .beginTransaction idTag connectorId => (beginTransaction E s idTag connectorId).2
  | .endTransaction reason connectorId => (endTransaction E s reason connectorId).2
  | .isTransactionRunning connectorId => (isTransactionRunning E s connectorId).2
  | .ocppPermitsCharge connectorId => (ocppPermitsCharge E s connectorId).2
  | .setConnectorPluggedInput f connectorId => setConnectorPluggedInput s f connectorId
  | .setEnergyMeterInput f connectorId => setEnergyMeterInput E s f connectorId
  | .setPowerMeterInput f connectorId => setPowerMeterInput E s f connectorId
  | .setSmartChargingOutput f connectorId => setSmartChargingOutput s f connectorId
  | .setEvReadyInput f connectorId => setEvReadyInput s f connectorId
  | .setEvseReadyInput f connectorId => setEvseReadyInput s f connectorId
  | .addErrorCodeInput f connectorId => addErrorCodeInput s f connectorId
  | .addMeterValueInput f measurand unit location phase connectorId =>
    addMeterValueInput E s f measurand unit location phase connectorId
  | .addMeterValueInput_sampler v connectorId => addMeterValueInput_sampler E s v connectorId
  | .setOnResetNotify f => setOnResetNotify s f
  | .setOnResetExecute f => setOnResetExecute s f
  | .setOnUnlockConnectorInOut f connectorId => setOnUnlockConnectorInOut s f connectorId
  | .setConnectorLockInOut f connectorId => setConnectorLockInOut s f connectorId
  | .setTxBasedMeterInOut f connectorId => setTxBasedMeterInOut s f connectorId
  | .isOperative connectorId => (isOperative s connectorId).2
  | .getTransactionId connectorId => (getTransactionId E s connectorId).2
  | .getTransactionIdTag connectorId => (getTransactionIdTag E s connectorId).2
  | .getOcppEngine => (getOcppEngine s).2
  | .setOnSetChargingProfileRequest f => setOnSetChargingProfileRequest s f
  | .setOnRemoteStartTransactionSendConf f => setOnRemoteStartTransactionSendConf s f
  | .setOnRemoteStopTransactionReceiveReq f => setOnRemoteStopTransactionReceiveReq s f
  | .setOnRemoteStopTransactionSendConf f => setOnRemoteStopTransactionSendConf s f
  | .setOnResetSendConf f => setOnResetSendConf s f
  | .setOnResetRequest f => setOnResetRequest s f
  | .startTransaction idTag onConf onAbort onTimeout onError timeout =>
    (startTransaction E s idTag onConf onAbort onTimeout onError timeout).2
  | .stopTransaction onConf onAbort onTimeout onError timeout =>
    (stopTransaction E s onConf onAbort onTimeout onError timeout).2

/-- The state of the facade after a sequence of calls. -/
def run (E : Env) (s : Facade) (calls : List FacadeCall) : Facade :=
  calls.foldl (step E) s

/-! ## A sample environment -/

namespace Sample

/-- Modelled from the spec: `ConnectorStatus::beginSession` is missing.  It is
valid only from Idle: it creates a Transaction and stores it via the
Transaction Store; it is rejected when the Connector already has a Transaction
or the store is full (4.3). -/
def beginSession (m : OcppModel) (connectorId : Nat) (idTag : CStr) : OcppModel :=
  match m.getConnectorStatus connectorId with
  | none => m
  | some connector =>
    match connector.transaction with
    | some _ => m
    | none =>
      match m.transactionStore with
      | none => m
      | some store =>
        if store.capacity ≤ (store.entries.filter (fun e => e.1 = connectorId)).length then m
        else
          let tx : TxRef := store.entries.length
          let m := m.updateTransaction tx (fun _ => { idTag := some idTag })
          let m := { m with transactionStore :=
                              some { store with entries := store.entries ++ [(connectorId, tx)] } }
          m.setConnectorStatus connectorId { connector with transaction := some tx }

/-- Modelled from the spec: `Transaction::isRunning` is missing.  A Transaction
is running when it is started and not yet stopped (3, Transaction). -/
def isRunning (tx : Transaction) : Bool :=
  tx.startRequested && !tx.stopRequested

/-- Modelled from the spec: `ConnectorStatus::endSession` is missing.  It is
valid from StartRequested or StartConfirmed: it records the stop reason, copies
the current idTag into `stopIdTag` if present and moves to StopRequested (4.3). -/
def endSession (m : OcppModel) (connectorId : Nat) (reason : Option CStr) : OcppModel :=
  match m.getConnectorStatus connectorId with
  | none => m
  | some connector =>
    match connector.transaction with
    | none => m
    | some tx =>
      if isRunning (m.transactions tx) then
        m.updateTransaction tx (fun t =>
          { t with stopReason := reason, stopRequested := true,
                   stopIdTag := match t.idTag with
                                | some idTag => some idTag
                                | none => t.stopIdTag })
      else m

/-- Modelled from the spec: `ConnectorStatus::getSessionIdTag` is missing.  The
idTag of the session of the Connector, while it has one that is not stopped. -/
def getSessionIdTag (m : OcppModel) (connectorId : Nat) : Option CStr :=
  match m.getConnectorStatus connectorId with
  | none => none
  | some connector =>
    match connector.transaction with
    | none => none
    | some tx => if (m.transactions tx).stopRequested then none else (m.transactions tx).idTag

/-- Modelled from the spec: `ConnectorStatus::isTransactionRunning` is missing. -/
def isTransactionRunning (m : OcppModel) (connectorId : Nat) : Bool :=
  match m.getConnectorStatus connectorId with
  | none => false
  | some connector =>
    match connector.transaction with
    | none => false
    | some tx => isRunning (m.transactions tx)

/-- Modelled from the spec: `ConnectorStatus::ocppPermitsCharge` is missing.
Charging is permitted once the start is confirmed and both Connector 0 and the
Connector are Operative (4.3). -/
def ocppPermitsCharge (m : OcppModel) (connectorId : Nat) : Bool :=
  match m.getConnectorStatus 0, m.getConnectorStatus connectorId with
  | some chargePoint, some connector =>
    match connector.transaction with
    | none => false
    | some tx =>
      (m.transactions tx).startConfirmed && !(m.transactions tx).stopRequested
        && decide (chargePoint.availability = Availability.Operative)
        && decide (connector.availability = Availability.Operative)
  | _, _ => false

/-- Modelled from the spec: `ConnectorStatus::getTransactionId` is missing.  The
transaction id assigned by the server, -1 while there is none. -/
def getTransactionId (m : OcppModel) (connectorId : Nat) : Int :=
  match m.getConnectorStatus connectorId with
  | none => -1
  | some connector =>
    match connector.transaction with
    | none => -1
    | some tx => ((m.transactions tx).transactionId).getD (-1)

/-- Modelled from the spec: `OcppEngine::initiateOperation` is missing.  It
registers the Operation (4.1); on initiation a start moves the Transaction to
StartRequested and a stop moves it to StopRequested (4.3). -/
def initiateOperation (e : OcppEngine) (op : OcppOperation) : OcppEngine :=
  let model :=
    match op.message with
    | OcppMessage.StartTransaction tx =>
      e.model.updateTransaction tx (fun t => { t with startRequested := true })
    | OcppMessage.StopTransaction tx =>
      e.model.updateTransaction tx (fun t => { t with stopRequested := true })
    | _ => e.model
  { e with model := model, operations := e.operations ++ [op] }

/-- Modelled from the spec: the classes behind the facade are missing.  An
environment that follows the description the spec gives of them, with
`IDTAG_LEN_MAX` 20, a Transaction Store of capacity 1 per connector, and a
tick of the engine on which no reply arrives and no timeout expires.  The
facade is evaluated in it on concrete inputs. -/
def env : Env where
  IDTAG_LEN_MAX := 20
  defaultConnectorId := 1
  beginSession := beginSession
  endSession := endSession
  getSessionIdTag := getSessionIdTag
  isTransactionRunning := isTransactionRunning
  ocppPermitsCharge := ocppPermitsCharge
  getTransactionId := getTransactionId
  isRunning := isRunning
  initiateOperation := initiateOperation
  loop := fun e => e
  newOcppEngine := fun _ => {}
  newChargePointStatusService := fun n => ({}, List.replicate n {})
  newTransactionStore := fun _ _ => { capacity := 1 }
  newMeteringService := fun n _ => { numConnectors := n }
  makeDefaultResetFn := none
  simpleOcppFactory_deinitialize := fun _ => {}
  makeDefaultFilesystemAdapter := fun _ => none
  addMeterValueSampler := fun ms connectorId v =>
    { ms with meterValueSamplers := ms.meterValueSamplers ++ [(connectorId, v)] }
  setEnergySampler := fun ms connectorId f =>
    { ms with energySamplers := ms.energySamplers ++ [(connectorId, f)] }
  setPowerSampler := fun ms connectorId f =>
    { ms with powerSamplers := ms.powerSamplers ++ [(connectorId, f)] }

/-- The idTag `ABC123`. -/
def abc123 : CStr := "ABC123".toList

/-- An idTag of 20 characters. -/
def maxLength : CStr := List.replicate 20 'A'

/-- An idTag of 21 characters. -/
def tooLong : CStr := List.replicate 21 'A'

/-- The engine that `OCPP_initialize` sets up for one physical connector. -/
def readyEngine : OcppEngine :=
  { model := { connectors := [{}, {}], transactionStore := some { capacity := 1 },
               chargePointStatusService := some {}, heartbeatService := true,
               firmwareService := true, diagnosticsService := true },
    runOcppTasks := false }

/-- The facade after `OCPP_initialize` for one physical connector. -/
def ready : Facade :=
  OCPP_initialize env Facade.initial 230 1 0

/-- The facade after a session was begun on connector 1. -/
def begun : Facade :=
  (beginTransaction env ready (some abc123) 1).2

/-- The facade after the start of the session on connector 1 was requested. -/
def started : Facade :=
  (startTransaction env begun (some abc123) none none none none none).2

/-- The engine of `ready` once the status service reports `isBooted()`. -/
def acceptedEngine : OcppEngine :=
  { readyEngine with
    model := { readyEngine.model with chargePointStatusService := some { booted := true } } }

/-- The facade once the status service reports `isBooted()`, the gate still
closed. -/
def accepted : Facade :=
  { ready with ocppEngine := some acceptedEngine }

/-- The engine of `begun`. -/
def begunEngine : OcppEngine :=
  begun.ocppEngine.getD {}

/-- The engine of `started`. -/
def startedEngine : OcppEngine :=
  started.ocppEngine.getD {}

/-- The engine of `ready` with connector 1 made Inoperative. -/
def inoperativeEngine : OcppEngine :=
  { readyEngine with
    model := { readyEngine.model with
               connectors := [{}, { availability := Availability.Inoperative }] } }

/-- The facade after `OCPP_initialize`, with connector 1 made Inoperative. -/
def inoperative : Facade :=
  { ready with ocppEngine := some inoperativeEngine }

end Sample

/-! ## The spec's session rules -/

/-- Modelled from the spec: `ConnectorStatus::beginSession` is missing.  The
environment `E` with `beginSession` as the spec describes it (4.3): valid only
from Idle, rejected when the Connector already has a Transaction or the store
is full.  Everything else is taken from `E`. -/
def Env.withSpecBeginSession (E : Env) : Env :=
  { E with beginSession := Sample.beginSession }

/-- The Transaction Store of the model has no free slot for the connector: it
holds as many Transactions of the connector as its capacity per connector. -/
def OcppModel.storeFull (m : OcppModel) (connectorId : Nat) : Bool :=
  match m.transactionStore with
  | none => false
  | some store => decide (store.capacity ≤ (store.entries.filter (fun e => e.1 = connectorId)).length)

/-! ## The charge point status service -/

/-- The other classes never take the charge point status service out of the
model: `OcppEngine::loop`, `OcppEngine::initiateOperation`, `beginSession` and
`endSession` leave a model that has the service with the service. -/
def Env.keepsStatusService (E : Env) : Prop :=
  (∀ e, e.model.chargePointStatusService.isSome = true →
      (E.loop e).model.chargePointStatusService.isSome = true)
  ∧ (∀ e op, e.model.chargePointStatusService.isSome = true →
      (E.initiateOperation e op).model.chargePointStatusService.isSome = true)
  ∧ (∀ m connectorId idTag, m.chargePointStatusService.isSome = true →
      (E.beginSession m connectorId idTag).chargePointStatusService.isSome = true)
  ∧ (∀ m connectorId reason, m.chargePointStatusService.isSome = true →
      (E.endSession m connectorId reason).chargePointStatusService.isSome = true)

/-- The engine of the facade, if there is one, has the charge point status
service. -/
def Facade.hasStatusService (s : Facade) : Prop :=
  match s.ocppEngine with
  | none => True
  | some engine => engine.model.chargePointStatusService.isSome = true

/-! ## Reading the log -/

/-- The calls that a facade function has added to the log, given the state
before and the state after it. -/
def newCalls (before after : Facade) : List Call :=
  after.calls.drop before.calls.length

/-- The Operations handed to `initiateOperation` among the calls of a log. -/
def initiatedOperations (calls : List Call) : List OcppOperation :=
  calls.filterMap fun c =>
    match c with
    | Call.initiateOperation op => some op
    | _ => none

/-- The Operations that a facade function has handed to the engine, given the
state before and the state after it. -/
def handedOperations (before after : Facade) : List OcppOperation :=
  initiatedOperations (newCalls before after)

/-- The Operation `op` was handed to the engine: the engine of the facade state
`after` is the one that `initiateOperation(op)` returns for the engine
`before`. -/
def handedOver (E : Env) (before : OcppEngine) (op : OcppOperation) (after : Facade) : Prop :=
  after.ocppEngine = some (E.initiateOperation before op)

/-- Every Operation of the list carries the timeout policy `t`. -/
def carryTimeout (ops : List OcppOperation) (t : Timeout) : Prop :=
  ∀ op ∈ ops, op.timeout = some t

/-- The relation between the Boot Gate and the engine: without an engine the
gate is closed; with an engine, the run-tasks flag of the engine is enabled
exactly when the gate is open. -/
def gateInvariant (s : Facade) : Prop :=
  match s.ocppEngine with
  | none => s.OCPP_booted = false
  | some engine => (engine.runOcppTasks = true ↔ s.OCPP_booted = true)

/-- Only the facade toggles the run-tasks flag of the engine: the methods
`OcppEngine::loop` and `OcppEngine::initiateOperation` of the environment leave
it as it is. -/
def Env.keepsRunOcppTasks (E : Env) : Prop :=
  (∀ e, (E.loop e).runOcppTasks = e.runOcppTasks)
    ∧ ∀ e op, (E.initiateOperation e op).runOcppTasks = e.runOcppTasks

/-- The run-tasks flag of the engine of the facade, if there is an engine. -/
def Facade.runOcppTasks (s : Facade) : Option Bool :=
  match s.ocppEngine with
  | none => none
  | some engine => some engine.runOcppTasks

/-- The idTags handed to `beginSession` among the calls of a log. -/
def begunSessions (calls : List Call) : List (Nat × CStr) :=
  calls.filterMap fun c =>
    match c with
    | Call.beginSession connectorId idTag => some (connectorId, idTag)
    | _ => none

/-- The reasons handed to `endSession` among the calls of a log. -/
def endedSessions (calls : List Call) : List (Nat × Option CStr) :=
  calls.filterMap fun c =>
    match c with
    | Call.endSession connectorId reason => some (connectorId, reason)
    | _ => none

/-! ## Theorems -/

section Theorems

open Sample

/-- The check `strnlen(idTag, IDTAG_LEN_MAX + 2) > IDTAG_LEN_MAX` holds exactly
for the strings longer than `IDTAG_LEN_MAX`. -/
theorem strnlen_check_iff (M : Nat) (t : CStr) : strnlen t (M + 2) > M ↔ t.length > M := by
  unfold strnlen
  omega

/-- C1: with an initialised engine, for an idTag that is null or longer than
`IDTAG_LEN_MAX` (the `strnlen` check rejects exactly the strings longer than
`IDTAG_LEN_MAX`), `beginTransaction` and `startTransaction` return false and
`authorize` returns, and each leaves the whole facade state as it was: the
engine with its connectors and Transactions is the same, and the log of calls
has no new `getConnectorStatus`, `beginSession` or `initiateOperation`. -/
theorem idTag_violation_rejected (E : Env) (s : Facade) (engine : OcppEngine)
    (idTag : Option CStr) (connectorId : Nat) (onConf onAbort onTimeout onError : Callback)
    (timeout : Option Timeout)
    (hengine : s.ocppEngine = some engine)
    (hbad : idTag = none ∨ ∃ t, idTag = some t ∧ E.IDTAG_LEN_MAX < t.length) :
    (∀ t : CStr, strnlen t (E.IDTAG_LEN_MAX + 2) > E.IDTAG_LEN_MAX ↔ E.IDTAG_LEN_MAX < t.length)
    ∧ beginTransaction E s idTag connectorId = (false, s)
    ∧ startTransaction E s idTag onConf onAbort onTimeout onError timeout = (false, s)
    ∧ authorize E s idTag onConf onAbort onTimeout onError timeout = s := by
  refine ⟨fun t => strnlen_check_iff _ t, ?_⟩
  rcases hbad with h | ⟨t, h, hlen⟩
  · subst h
    simp [beginTransaction, startTransaction, authorize, hengine]
  · subst h
    have hchk : strnlen t (E.IDTAG_LEN_MAX + 2) > E.IDTAG_LEN_MAX :=
      (strnlen_check_iff _ t).2 hlen
    simp [beginTransaction, startTransaction, authorize, hengine, hchk]

/-- C1 at a concrete input: an idTag of 21 characters with `IDTAG_LEN_MAX` 20,
after `OCPP_initialize`. -/
theorem idTag_violation_rejected_witness :
    ready.ocppEngine = some readyEngine
    ∧ env.IDTAG_LEN_MAX < tooLong.length
    ∧ beginTransaction env ready (some tooLong) 1 = (false, ready)
    ∧ startTransaction env ready (some tooLong) none none none none none = (false, ready)
    ∧ authorize env ready (some tooLong) none none none none none = ready :=
  ⟨rfl, by decide, (idTag_violation_rejected env ready readyEngine (some tooLong) 1
    none none none none none rfl (Or.inr ⟨tooLong, rfl, by decide⟩)).2⟩

/-- A string of at most `IDTAG_LEN_MAX` characters passes the `strnlen` check. -/
theorem strnlen_check_valid (M : Nat) (t : CStr) (h : t.length ≤ M) : ¬ strnlen t (M + 2) > M := by
  unfold strnlen
  omega

/-- What `beginTransaction` does behind its three guards: it returns true,
looks the connector up and calls `beginSession` once. -/
theorem beginTransaction_behind_guards (E : Env) (s : Facade) (engine : OcppEngine)
    (connector : ConnectorStatus) (t : CStr) (connectorId : Nat)
    (hengine : s.ocppEngine = some engine)
    (hlen : t.length ≤ E.IDTAG_LEN_MAX)
    (hconn : engine.model.getConnectorStatus connectorId = some connector) :
    beginTransaction E s (some t) connectorId =
      (true, { s with
        calls := s.calls ++ [Call.getConnectorStatus connectorId, Call.beginSession connectorId t],
        ocppEngine := some { engine with model := E.beginSession engine.model connectorId t } }) := by
  simp [beginTransaction, hengine, hconn, strnlen_check_valid _ t hlen, Facade.record]

/-- C2, the claim as stated fails: in the sample environment, after a session
was begun on connector 1 and its start was requested, the Transaction of
connector 1 is running and the Transaction Store (capacity 1) has no free slot
for connector 1, and yet `beginTransaction` with the valid idTag `ABC123`
returns true. -/
theorem beginTransaction_running_returns_true :
    (isTransactionRunning env started 1).1 = true
    ∧ (started.ocppEngine.bind (fun e => e.model.transactionStore)) =
        some { capacity := 1, entries := [(1, 0)] }
    ∧ abc123.length ≤ env.IDTAG_LEN_MAX
    ∧ (beginTransaction env started (some abc123) 1).1 = true := by
  decide

/-- The function `beginSession` as the spec describes it leaves the model as it
is where the connector already holds a Transaction or the store has no free
slot for it. -/
theorem beginSession_rejects (m : OcppModel) (connector : ConnectorStatus) (connectorId : Nat)
    (t : CStr) (hconn : m.getConnectorStatus connectorId = some connector)
    (hbusy : (∃ tx, connector.transaction = some tx) ∨ m.storeFull connectorId = true) :
    Sample.beginSession m connectorId t = m := by
  unfold Sample.beginSession
  rw [hconn]
  cases htx : connector.transaction with
  | some tx => simp [htx]
  | none =>
    rcases hbusy with ⟨tx, h⟩ | hfull
    · rw [htx] at h
      cases h
    · unfold OcppModel.storeFull at hfull
      cases hstore : m.transactionStore with
      | none => simp [htx, hstore]
      | some store =>
        rw [hstore] at hfull
        simp only [decide_eq_true_eq] at hfull
        simp [htx, hstore, hfull]

/-- C2 as amended: with an initialised engine and a valid idTag, for every
connector that already has a running Transaction, or whose Transaction Store
has no free slot for it, `beginTransaction` returns true, and it leaves the
existing Transaction unchanged: `beginSession`, as the spec describes it, is
called once and rejects, so the engine with its connectors and Transactions is
as it was. -/
theorem beginTransaction_busy_returns_true (E : Env) (s : Facade) (engine : OcppEngine)
    (connector : ConnectorStatus) (t : CStr) (connectorId : Nat)
    (hengine : s.ocppEngine = some engine)
    (hlen : t.length ≤ E.IDTAG_LEN_MAX)
    (hconn : engine.model.getConnectorStatus connectorId = some connector)
    (hbusy : (∃ tx, connector.transaction = some tx
                ∧ E.isRunning (engine.model.transactions tx) = true)
              ∨ engine.model.storeFull connectorId = true) :
    (beginTransaction E.withSpecBeginSession s (some t) connectorId).1 = true
    ∧ (beginTransaction E.withSpecBeginSession s (some t) connectorId).2.calls =
        s.calls ++ [Call.getConnectorStatus connectorId, Call.beginSession connectorId t]
    ∧ (beginTransaction E.withSpecBeginSession s (some t) connectorId).2.ocppEngine = some engine
    ∧ (beginTransaction E.withSpecBeginSession s (some t) connectorId).2.connectorTransaction
        connectorId = connector.transaction := by
  have hreject : Sample.beginSession engine.model connectorId t = engine.model := by
    apply beginSession_rejects engine.model connector connectorId t hconn
    rcases hbusy with ⟨tx, htx, _⟩ | hfull
    · exact Or.inl ⟨tx, htx⟩
    · exact Or.inr hfull
  have hlen' : t.length ≤ E.withSpecBeginSession.IDTAG_LEN_MAX := hlen
  rw [beginTransaction_behind_guards E.withSpecBeginSession s engine connector t connectorId
    hengine hlen' hconn]
  have hE : E.withSpecBeginSession.beginSession = Sample.beginSession := rfl
  simp [hE, hreject, Facade.connectorTransaction, hconn]

/-- C3: with an initialised engine, an idTag of at most `IDTAG_LEN_MAX`
characters and an existing connector (Idle or not), `beginTransaction` returns
true, and what it does is one `getConnectorStatus` and exactly one
`beginSession` of that connector with that idTag: these are the two calls it
adds to the log, and the model it leaves is the one `beginSession` returns. -/
theorem beginTransaction_valid (E : Env) (s : Facade) (engine : OcppEngine)
    (connector : ConnectorStatus) (t : CStr) (connectorId : Nat)
    (hengine : s.ocppEngine = some engine)
    (hlen : t.length ≤ E.IDTAG_LEN_MAX)
    (hconn : engine.model.getConnectorStatus connectorId = some connector) :
    (beginTransaction E s (some t) connectorId).1 = true
    ∧ (beginTransaction E s (some t) connectorId).2.calls =
        s.calls ++ [Call.getConnectorStatus connectorId, Call.beginSession connectorId t]
    ∧ (beginTransaction E s (some t) connectorId).2.ocppEngine =
        some { engine with model := E.beginSession engine.model connectorId t }
    ∧ (beginTransaction E s (some t) connectorId).2.OCPP_booted = s.OCPP_booted := by
  rw [beginTransaction_behind_guards E s engine connector t connectorId hengine hlen hconn]
  simp

/-- C2 as amended, at concrete inputs: connector 1 with a running Transaction
and a full store, and connector 1 with a session begun and a full store. -/
theorem beginTransaction_busy_returns_true_witness :
    started.ocppEngine = some startedEngine
    ∧ abc123.length ≤ env.IDTAG_LEN_MAX
    ∧ startedEngine.model.getConnectorStatus 1 = some { transaction := some 0 }
    ∧ env.isRunning (startedEngine.model.transactions 0) = true
    ∧ (beginTransaction env.withSpecBeginSession started (some abc123) 1).1 = true
    ∧ (beginTransaction env.withSpecBeginSession started (some abc123) 1).2.ocppEngine =
        some startedEngine
    ∧ begunEngine.model.storeFull 1 = true
    ∧ (beginTransaction env.withSpecBeginSession begun (some abc123) 1).1 = true
    ∧ (beginTransaction env.withSpecBeginSession begun (some abc123) 1).2.ocppEngine =
        some begunEngine :=
  have h := beginTransaction_busy_returns_true env started startedEngine { transaction := some 0 }
    abc123 1 rfl (by decide) rfl (Or.inl ⟨0, rfl, rfl⟩)
  have h' := beginTransaction_busy_returns_true env begun begunEngine { transaction := some 0 }
    abc123 1 rfl (by decide) rfl (Or.inr rfl)
  ⟨rfl, by decide, rfl, rfl, h.1, h.2.2.1, rfl, h'.1, h'.2.2.1⟩

/-- C3 at a concrete input: an idTag of exactly `IDTAG_LEN_MAX` characters on
the idle connector 1 after `OCPP_initialize`. -/
theorem beginTransaction_valid_witness :
    ready.ocppEngine = some readyEngine
    ∧ maxLength.length = env.IDTAG_LEN_MAX
    ∧ readyEngine.model.getConnectorStatus 1 = some {}
    ∧ (beginTransaction env ready (some maxLength) 1).1 = true
    ∧ (beginTransaction env ready (some maxLength) 1).2.calls =
        ready.calls ++ [Call.getConnectorStatus 1, Call.beginSession 1 maxLength] :=
  have h := beginTransaction_valid env ready readyEngine {} maxLength 1 rfl (by decide) rfl
  ⟨rfl, by decide, rfl, h.1, h.2.1⟩

/-- C4, the claim as stated fails: before `OCPP_initialize` the engine is null
and `isOperative` returns true, not false. -/
theorem isOperative_uninitialized_returns_true :
    Facade.initial.ocppEngine = none ∧ (isOperative Facade.initial 1).1 = true :=
  ⟨rfl, rfl⟩

/-- C4 as amended: when `ocppEngine` is null, `beginTransaction`,
`endTransaction`, `isTransactionRunning`, `ocppPermitsCharge`,
`startTransaction` and `stopTransaction` return false, `isOperative` returns
true, `getTransactionIdTag` and `getOcppEngine` return null, and these as well
as `OCPP_loop`, `bootNotification`, `authorize` and the setters of samplers and
hooks leave the facade state, log included, exactly as it was. -/
theorem uninitialized_engine_noop (E : Env) (s : Facade) (h : s.ocppEngine = none) :
    (∀ idTag connectorId, beginTransaction E s idTag connectorId = (false, s))
    ∧ (∀ reason connectorId, endTransaction E s reason connectorId = (false, s))
    ∧ (∀ connectorId, isTransactionRunning E s connectorId = (false, s))
    ∧ (∀ connectorId, ocppPermitsCharge E s connectorId = (false, s))
    ∧ (∀ connectorId, isOperative s connectorId = (true, s))
    ∧ (∀ idTag onConf onAbort onTimeout onError timeout,
        startTransaction E s idTag onConf onAbort onTimeout onError timeout = (false, s))
    ∧ (∀ onConf onAbort onTimeout onError timeout,
        stopTransaction E s onConf onAbort onTimeout onError timeout = (false, s))
    ∧ (∀ connectorId, getTransactionIdTag E s connectorId = (none, s))
    ∧ getOcppEngine s = (none, s)
    ∧ OCPP_loop E s = s
    ∧ (∀ m v onConf onAbort onTimeout onError timeout,
        bootNotification E s m v onConf onAbort onTimeout onError timeout = s)
    ∧ (∀ p onConf onAbort onTimeout onError timeout,
        bootNotification_payload E s p onConf onAbort onTimeout onError timeout = s)
    ∧ (∀ idTag onConf onAbort onTimeout onError timeout,
        authorize E s idTag onConf onAbort onTimeout onError timeout = s)
    ∧ (∀ f connectorId, setConnectorPluggedInput s f connectorId = s)
    ∧ (∀ f connectorId, setEnergyMeterInput E s f connectorId = s)
    ∧ (∀ f connectorId, setPowerMeterInput E s f connectorId = s)
    ∧ (∀ f connectorId, setSmartChargingOutput s f connectorId = s)
    ∧ (∀ f connectorId, setEvReadyInput s f connectorId = s)
    ∧ (∀ f connectorId, setEvseReadyInput s f connectorId = s)
    ∧ (∀ f connectorId, addErrorCodeInput s f connectorId = s)
    ∧ (∀ f measurand unit location phase connectorId,
        addMeterValueInput E s f measurand unit location phase connectorId = s)
    ∧ (∀ v connectorId, addMeterValueInput_sampler E s v connectorId = s)
    ∧ (∀ f, setOnResetNotify s f = s)
    ∧ (∀ f, setOnResetExecute s f = s)
    ∧ (∀ f connectorId, setOnUnlockConnectorInOut s f connectorId = s)
    ∧ (∀ f connectorId, setConnectorLockInOut s f connectorId = s)
    ∧ (∀ f connectorId, setTxBasedMeterInOut s f connectorId = s) := by
  refine ⟨?_, ?_, ?_, ?_, ?_, ?_, ?_, ?_, ?_, ?_, ?_, ?_, ?_, ?_, ?_, ?_, ?_, ?_, ?_, ?_, ?_, ?_,
    ?_, ?_, ?_, ?_, ?_⟩ <;> intros <;>
  simp [beginTransaction, endTransaction, isTransactionRunning, ocppPermitsCharge, isOperative,
    startTransaction, stopTransaction, getTransactionIdTag, getOcppEngine, OCPP_loop,
    bootNotification, bootNotification_payload, authorize, setConnectorPluggedInput,
    setEnergyMeterInput, setPowerMeterInput, setSmartChargingOutput, setEvReadyInput,
    setEvseReadyInput, addErrorCodeInput, addMeterValueInput, addMeterValueInput_sampler,
    setOnResetNotify, setOnResetExecute, setOnUnlockConnectorInOut, setConnectorLockInOut,
    setTxBasedMeterInOut, withConnector, withStatusService, h]

/-- C4 as amended, at a concrete input: the facade before `OCPP_initialize`. -/
theorem uninitialized_engine_noop_witness :
    Facade.initial.ocppEngine = none
    ∧ beginTransaction env Facade.initial (some abc123) 1 = (false, Facade.initial)
    ∧ isOperative Facade.initial 1 = (true, Facade.initial)
    ∧ OCPP_loop env Facade.initial = Facade.initial :=
  have h := uninitialized_engine_noop env Facade.initial rfl
  ⟨rfl, h.1 _ _, h.2.2.2.2.1 _, h.2.2.2.2.2.2.2.2.2.1⟩

/-- Recording a call leaves the Boot Gate as it is. -/
theorem record_booted (s : Facade) (c : Call) : (s.record c).OCPP_booted = s.OCPP_booted := rfl

/-- Handing an Operation to the engine leaves the Boot Gate as it is. -/
theorem initiateOperation_booted (E : Env) (s : Facade) (op : OcppOperation) :
    (s.initiateOperation E op).OCPP_booted = s.OCPP_booted := by
  unfold Facade.initiateOperation
  split <;> rfl

/-- The connector setters leave the Boot Gate as it is. -/
theorem withConnector_booted (s : Facade) (connectorId : Nat) (f : ConnectorStatus → ConnectorStatus) :
    (withConnector s connectorId f).OCPP_booted = s.OCPP_booted := by
  unfold withConnector
  repeat' split
  all_goals rfl

/-- The function `beginTransaction` leaves the Boot Gate as it is. -/
theorem beginTransaction_booted (E : Env) (s : Facade) (idTag : Option CStr) (connectorId : Nat) :
    (beginTransaction E s idTag connectorId).2.OCPP_booted = s.OCPP_booted := by
  unfold beginTransaction
  repeat' split
  all_goals rfl

/-- The function `startTransaction` leaves the Boot Gate as it is. -/
theorem startTransaction_booted (E : Env) (s : Facade) (idTag : Option CStr)
    (onConf onAbort onTimeout onError : Callback) (timeout : Option Timeout) :
    (startTransaction E s idTag onConf onAbort onTimeout onError timeout).2.OCPP_booted
      = s.OCPP_booted := by
  unfold startTransaction
  repeat' split
  all_goals try simp only []
  all_goals try split
  all_goals simp_all [initiateOperation_booted, beginTransaction_booted, record_booted]

/-- The function `stopTransaction` leaves the Boot Gate as it is. -/
theorem stopTransaction_booted (E : Env) (s : Facade)
    (onConf onAbort onTimeout onError : Callback) (timeout : Option Timeout) :
    (stopTransaction E s onConf onAbort onTimeout onError timeout).2.OCPP_booted
      = s.OCPP_booted := by
  unfold stopTransaction
  repeat' split
  all_goals simp_all [initiateOperation_booted, record_booted]

/-- No facade call other than `OCPP_deinitialize` closes an open Boot Gate. -/
theorem step_keeps_gate_open (E : Env) (s : Facade) (c : FacadeCall)
    (hc : c ≠ FacadeCall.OCPP_deinitialize) (hb : s.OCPP_booted = true) :
    (step E s c).OCPP_booted = true := by
  cases c
  case OCPP_deinitialize => exact absurd rfl hc
  case OCPP_loop =>
    simp only [step, OCPP_loop]
    repeat' split
    all_goals simp_all
  case startTransaction => simp only [step, startTransaction_booted, hb]
  case stopTransaction => simp only [step, stopTransaction_booted, hb]
  all_goals
    simp only [step, OCPP_initialize, bootNotification, bootNotification_payload, authorize,
      endTransaction, isTransactionRunning, ocppPermitsCharge, setConnectorPluggedInput,
      setEnergyMeterInput, setPowerMeterInput, setSmartChargingOutput, setEvReadyInput,
      setEvseReadyInput, addErrorCodeInput, addMeterValueInput, addMeterValueInput_sampler,
      setOnResetNotify, setOnResetExecute, setOnUnlockConnectorInOut, setConnectorLockInOut,
      setTxBasedMeterInOut, isOperative, getTransactionId, getTransactionIdTag, getOcppEngine,
      setOnSetChargingProfileRequest, setOnRemoteStartTransactionSendConf,
      setOnRemoteStopTransactionReceiveReq, setOnRemoteStopTransactionSendConf,
      setOnResetSendConf, setOnResetRequest, withStatusService, beginTransaction_booted,
      withConnector_booted]
    repeat' split
    all_goals simp_all [initiateOperation_booted, record_booted]

/-- After a sequence of facade calls without `OCPP_deinitialize`, an open Boot
Gate is open. -/
theorem run_keeps_gate_open (E : Env) (calls : List FacadeCall) :
    ∀ s : Facade, FacadeCall.OCPP_deinitialize ∉ calls → s.OCPP_booted = true →
      (run E s calls).OCPP_booted = true := by
  induction calls with
  | nil => intro s _ hb; exact hb
  | cons c cs ih =>
    intro s hno hb
    have hc : c ≠ FacadeCall.OCPP_deinitialize := fun h => hno (h ▸ List.mem_cons_self _ _)
    have hcs : FacadeCall.OCPP_deinitialize ∉ cs := fun h => hno (List.mem_cons_of_mem _ h)
    exact ih (step E s c) hcs (step_keeps_gate_open E s c hc hb)

/-- C6: the Boot Gate is closed in the initial state, and it is a latch: from a
state in which `OCPP_booted` is true, after every number of calls of a sequence
of `OCPP_loop` and other facade calls without `OCPP_deinitialize`,
`OCPP_booted` is true, in every environment, so whatever `isBooted()` reports
and whatever the other classes do. -/
theorem boot_gate_latch (E : Env) (s : Facade) (calls : List FacadeCall)
    (hno : FacadeCall.OCPP_deinitialize ∉ calls) (hb : s.OCPP_booted = true) :
    Facade.initial.OCPP_booted = false
    ∧ ∀ n : Nat, (run E s (calls.take n)).OCPP_booted = true := by
  refine ⟨rfl, fun n => ?_⟩
  exact run_keeps_gate_open E (calls.take n) s (fun h => hno (List.mem_of_mem_take h)) hb

/-- C6 at a concrete input: the gate opened by a tick on which the status
service reports `isBooted()`, then a session, a tick, and a second
`OCPP_initialize`. -/
theorem boot_gate_latch_witness :
    FacadeCall.OCPP_deinitialize ∉
        [FacadeCall.beginTransaction (some abc123) 1, FacadeCall.OCPP_loop,
          FacadeCall.OCPP_initialize 230 1 0]
    ∧ (OCPP_loop env accepted).OCPP_booted = true
    ∧ (run env (OCPP_loop env accepted)
        [FacadeCall.beginTransaction (some abc123) 1, FacadeCall.OCPP_loop,
          FacadeCall.OCPP_initialize 230 1 0]).OCPP_booted = true :=
  ⟨by decide, rfl,
    (boot_gate_latch env (OCPP_loop env accepted)
      [FacadeCall.beginTransaction (some abc123) 1, FacadeCall.OCPP_loop,
        FacadeCall.OCPP_initialize 230 1 0] (by decide) rfl).2 3⟩

/-- The guard `!csService || csService->isBooted()` of `OCPP_loop`: with an
initialised engine and the gate closed, one `OCPP_loop` sets `OCPP_booted` to
true if and only if, after the tick of the engine, the model has no charge
point status service or the service reports `isBooted()`; when it does, the
run-tasks flag of the engine is set to true; otherwise the gate stays closed
and the engine is left as its tick left it. -/
theorem OCPP_loop_gate (E : Env) (s : Facade) (engine : OcppEngine)
    (hengine : s.ocppEngine = some engine) (hclosed : s.OCPP_booted = false) :
    ((OCPP_loop E s).OCPP_booted = true ↔
      ((E.loop engine).model.chargePointStatusService = none ∨ reportsBooted (E.loop engine) = true))
    ∧ ((OCPP_loop E s).OCPP_booted = true →
        (OCPP_loop E s).ocppEngine = some { E.loop engine with runOcppTasks := true })
    ∧ ((OCPP_loop E s).OCPP_booted ≠ true →
        (OCPP_loop E s).OCPP_booted = false ∧ (OCPP_loop E s).ocppEngine = some (E.loop engine)) := by
  unfold OCPP_loop reportsBooted
  simp only [hengine, hclosed]
  cases hcs : (E.loop engine).model.chargePointStatusService with
  | none => simp
  | some cs => cases hb : cs.booted <;> simp [hb, hclosed]

/-- C7: with the engine initialised, its charge point status service in place
and the gate closed, one call of `OCPP_loop` sets `OCPP_booted` to true if and
only if the status service reports `isBooted()` (read after the tick of the
engine, as the code does); where it does, the run-tasks flag of the engine is
enabled; otherwise the gate stays closed and the engine is left as its tick
left it, so the run-tasks flag is not enabled. -/
theorem OCPP_loop_gate_iff (E : Env) (s : Facade) (engine : OcppEngine)
    (csService : ChargePointStatusService)
    (hengine : s.ocppEngine = some engine) (hclosed : s.OCPP_booted = false)
    (hcs : (E.loop engine).model.chargePointStatusService = some csService) :
    ((OCPP_loop E s).OCPP_booted = true ↔ csService.booted = true)
    ∧ (reportsBooted (E.loop engine) = csService.booted)
    ∧ (csService.booted = true →
        (OCPP_loop E s).ocppEngine = some { E.loop engine with runOcppTasks := true })
    ∧ (csService.booted = false →
        (OCPP_loop E s).OCPP_booted = false ∧ (OCPP_loop E s).ocppEngine = some (E.loop engine)) := by
  unfold OCPP_loop reportsBooted
  simp only [hengine, hclosed, hcs]
  cases hb : csService.booted <;> simp [hclosed]

/-- C7 at concrete inputs: right after `OCPP_initialize` the status service does
not report `isBooted()` and a tick leaves the gate closed and the run-tasks
flag disabled; once the service reports `isBooted()`, a tick opens the gate and
enables the flag. -/
theorem OCPP_loop_gate_iff_witness :
    ready.ocppEngine = some readyEngine
    ∧ ready.OCPP_booted = false
    ∧ (env.loop readyEngine).model.chargePointStatusService = some {}
    ∧ (OCPP_loop env ready).OCPP_booted = false
    ∧ (OCPP_loop env ready).ocppEngine = some readyEngine
    ∧ accepted.ocppEngine = some acceptedEngine
    ∧ accepted.OCPP_booted = false
    ∧ (env.loop acceptedEngine).model.chargePointStatusService = some { booted := true }
    ∧ (OCPP_loop env accepted).OCPP_booted = true
    ∧ (OCPP_loop env accepted).ocppEngine = some { acceptedEngine with runOcppTasks := true } :=
  have h1 := OCPP_loop_gate_iff env ready readyEngine {} rfl rfl rfl
  have h2 := OCPP_loop_gate_iff env accepted acceptedEngine { booted := true } rfl rfl rfl
  ⟨rfl, rfl, rfl, (h1.2.2.2 rfl).1, (h1.2.2.2 rfl).2, rfl, rfl, rfl, h2.1.2 rfl, h2.2.2.1 rfl⟩

/-- The added calls of a log that was extended. -/
theorem newCalls_append (s s' : Facade) (added : List Call) (h : s'.calls = s.calls ++ added) :
    newCalls s s' = added := by
  simp [newCalls, h]

/-- The listeners and the timeout do not change the message of an Operation. -/
theorem configureOperation_message (op : OcppOperation) (onConf onAbort onTimeout onError : Callback)
    (timeout : Option Timeout) (dflt : Timeout) :
    (configureOperation op onConf onAbort onTimeout onError timeout dflt).message = op.message := by
  cases timeout <;> rfl

/-- The Operations of a log that was extended. -/
theorem initiatedOperations_append (a b : List Call) :
    initiatedOperations (a ++ b) = initiatedOperations a ++ initiatedOperations b := by
  simp [initiatedOperations, List.filterMap_append]

/-- C8: with an initialised engine and a valid idTag, if connector 1 holds a
Transaction whose start has not been requested, `startTransaction` returns
true; it calls `getConnectorStatus` and then `initiateOperation` once, with a
StartTransaction Operation for that Transaction, and nothing else: no
`beginSession`.  The engine handed to `initiateOperation` is the old one but
for the idTag of that Transaction, which is the given idTag: connector 1 still
holds the same Transaction object, and every other Transaction is as it was. -/
theorem startTransaction_existing (E : Env) (s : Facade) (engine : OcppEngine)
    (connector : ConnectorStatus) (tx : TxRef) (t : CStr)
    (onConf onAbort onTimeout onError : Callback) (timeout : Option Timeout)
    (hengine : s.ocppEngine = some engine)
    (hlen : t.length ≤ E.IDTAG_LEN_MAX)
    (hconn : engine.model.getConnectorStatus OCPP_ID_OF_CONNECTOR = some connector)
    (htx : connector.transaction = some tx)
    (hreq : (engine.model.transactions tx).startRequested = false) :
    ∃ (op : OcppOperation) (engine1 : OcppEngine),
      startTransaction E s (some t) onConf onAbort onTimeout onError timeout =
        (true, { s with
          calls := s.calls ++ [Call.getConnectorStatus OCPP_ID_OF_CONNECTOR, Call.initiateOperation op],
          ocppEngine := some (E.initiateOperation engine1 op) })
      ∧ begunSessions
          (newCalls s (startTransaction E s (some t) onConf onAbort onTimeout onError timeout).2) = []
      ∧ initiatedOperations
          (newCalls s (startTransaction E s (some t) onConf onAbort onTimeout onError timeout).2) = [op]
      ∧ op = configureOperation (makeOcppOperation (OcppMessage.StartTransaction tx))
          onConf onAbort onTimeout onError timeout Timeout.SuppressedTimeout
      ∧ op.message = OcppMessage.StartTransaction tx
      ∧ engine1 = { engine with model := { engine.model with transactions := engine1.model.transactions } }
      ∧ engine1.model.getConnectorStatus OCPP_ID_OF_CONNECTOR = some connector
      ∧ engine1.model.transactions tx = { engine.model.transactions tx with idTag := some t }
      ∧ (∀ r, r ≠ tx → engine1.model.transactions r = engine.model.transactions r) := by
  have hst : startTransaction E s (some t) onConf onAbort onTimeout onError timeout =
      (true, { s with
        calls := s.calls ++ [Call.getConnectorStatus OCPP_ID_OF_CONNECTOR, Call.initiateOperation
          (configureOperation (makeOcppOperation (OcppMessage.StartTransaction tx))
            onConf onAbort onTimeout onError timeout Timeout.SuppressedTimeout)],
        ocppEngine := some (E.initiateOperation
          { engine with model := engine.model.updateTransaction tx (fun x => { x with idTag := some t }) }
          (configureOperation (makeOcppOperation (OcppMessage.StartTransaction tx))
            onConf onAbort onTimeout onError timeout Timeout.SuppressedTimeout)) }) := by
    simp [startTransaction, hengine, hconn, htx, hreq, strnlen_check_valid _ t hlen,
      Facade.initiateOperation, Facade.record]
  refine ⟨_, { engine with model := engine.model.updateTransaction tx (fun x => { x with idTag := some t }) },
    hst, ?_, ?_, rfl, ?_, ?_, ?_, ?_, ?_⟩
  · rw [hst, newCalls_append s _ _ rfl]
    rfl
  · rw [hst, newCalls_append s _ _ rfl]
    rfl
  · exact configureOperation_message _ _ _ _ _ _ _
  · rfl
  · exact hconn
  · simp [OcppModel.updateTransaction]
  · intro r hr
    simp [OcppModel.updateTransaction, hr]

/-- C8 at a concrete input: a session begun on connector 1 with `beginTransaction`,
then `startTransaction` with the idTag `ABC123`. -/
theorem startTransaction_existing_witness :
    begun.ocppEngine = some begunEngine
    ∧ abc123.length ≤ env.IDTAG_LEN_MAX
    ∧ begunEngine.model.getConnectorStatus OCPP_ID_OF_CONNECTOR = some { transaction := some 0 }
    ∧ (begunEngine.model.transactions 0).startRequested = false
    ∧ (startTransaction env begun (some abc123) none none none none none).1 = true :=
  ⟨rfl, by decide, rfl, rfl,
    (startTransaction_existing env begun begunEngine { transaction := some 0 } 0 abc123
      none none none none none rfl (by decide) rfl rfl rfl).elim
      fun _ h => h.elim fun _ h => by rw [h.1]⟩

/-- The engine that `beginTransaction` leaves does not depend on the log. -/
theorem beginTransaction_record_engine (E : Env) (s : Facade) (c : Call) (idTag : Option CStr)
    (connectorId : Nat) :
    (beginTransaction E (s.record c) idTag connectorId).2.ocppEngine =
      (beginTransaction E s idTag connectorId).2.ocppEngine := by
  unfold beginTransaction
  simp only [Facade.record]
  repeat' split
  all_goals simp_all

/-- The function `beginTransaction` keeps an engine that is there. -/
theorem beginTransaction_engine_isSome (E : Env) (s : Facade) (idTag : Option CStr)
    (connectorId : Nat) (h : s.ocppEngine.isSome = true) :
    (beginTransaction E s idTag connectorId).2.ocppEngine.isSome = true := by
  unfold beginTransaction
  repeat' split
  all_goals simp_all [Facade.record]

/-- The function `beginTransaction` extends the log by calls that are not `initiateOperation`. -/
theorem beginTransaction_calls (E : Env) (s : Facade) (idTag : Option CStr) (connectorId : Nat) :
    ∃ added, (beginTransaction E s idTag connectorId).2.calls = s.calls ++ added
      ∧ initiatedOperations added = [] := by
  unfold beginTransaction
  repeat' split
  all_goals first
    | exact ⟨[], (List.append_nil _).symm, rfl⟩
    | exact ⟨[_], rfl, rfl⟩
    | exact ⟨[_, _], (List.append_assoc _ [_] [_]), rfl⟩

/-- The function `startTransaction` where connector 1 has no Transaction: it
calls `beginTransaction` and reads the Transaction of the connector again. -/
theorem startTransaction_no_transaction (E : Env) (s : Facade) (engine : OcppEngine)
    (connector : ConnectorStatus) (t : CStr)
    (onConf onAbort onTimeout onError : Callback) (timeout : Option Timeout)
    (hengine : s.ocppEngine = some engine)
    (hc : ¬ strnlen t (E.IDTAG_LEN_MAX + 2) > E.IDTAG_LEN_MAX)
    (hconn : engine.model.getConnectorStatus OCPP_ID_OF_CONNECTOR = some connector)
    (htx : connector.transaction = none) :
    startTransaction E s (some t) onConf onAbort onTimeout onError timeout =
      match (beginTransaction E (s.record (Call.getConnectorStatus OCPP_ID_OF_CONNECTOR)) (some t)
          E.defaultConnectorId).2.connectorTransaction OCPP_ID_OF_CONNECTOR with
      | none => (false, (beginTransaction E (s.record (Call.getConnectorStatus OCPP_ID_OF_CONNECTOR))
          (some t) E.defaultConnectorId).2)
      | some tx => (true, Facade.initiateOperation E
          (beginTransaction E (s.record (Call.getConnectorStatus OCPP_ID_OF_CONNECTOR)) (some t)
            E.defaultConnectorId).2
          (configureOperation (makeOcppOperation (OcppMessage.StartTransaction tx))
            onConf onAbort onTimeout onError timeout Timeout.SuppressedTimeout)) := by
  unfold startTransaction
  simp only [hengine, hconn, htx, if_neg hc]

/-- The log of `startTransaction`: it is extended, by exactly one
`initiateOperation` of a StartTransaction where true is returned and by none
where false is returned. -/
theorem startTransaction_log (E : Env) (s : Facade) (idTag : Option CStr)
    (onConf onAbort onTimeout onError : Callback) (timeout : Option Timeout) :
    ∃ added, (startTransaction E s idTag onConf onAbort onTimeout onError timeout).2.calls =
        s.calls ++ added
      ∧ ((startTransaction E s idTag onConf onAbort onTimeout onError timeout).1 = true →
          ∃ tx, initiatedOperations added =
            [configureOperation (makeOcppOperation (OcppMessage.StartTransaction tx))
              onConf onAbort onTimeout onError timeout Timeout.SuppressedTimeout])
      ∧ ((startTransaction E s idTag onConf onAbort onTimeout onError timeout).1 = false →
          initiatedOperations added = []) := by
  cases hengine : s.ocppEngine with
  | none => exact ⟨[], by simp [startTransaction, hengine], by simp [startTransaction, hengine], fun _ => rfl⟩
  | some engine =>
    cases idTag with
    | none => exact ⟨[], by simp [startTransaction, hengine], by simp [startTransaction, hengine], fun _ => rfl⟩
    | some t =>
      by_cases hc : strnlen t (E.IDTAG_LEN_MAX + 2) > E.IDTAG_LEN_MAX
      · exact ⟨[], by simp [startTransaction, hengine, hc], by simp [startTransaction, hengine, hc],
          fun _ => rfl⟩
      · cases hconn : engine.model.getConnectorStatus OCPP_ID_OF_CONNECTOR with
        | none =>
          exact ⟨[Call.getConnectorStatus OCPP_ID_OF_CONNECTOR],
            by simp [startTransaction, hengine, hc, hconn, Facade.record],
            by simp [startTransaction, hengine, hc, hconn], fun _ => rfl⟩
        | some connector =>
          cases htx : connector.transaction with
          | some tx =>
            cases hreq : (engine.model.transactions tx).startRequested
            · refine ⟨[Call.getConnectorStatus OCPP_ID_OF_CONNECTOR, Call.initiateOperation
                (configureOperation (makeOcppOperation (OcppMessage.StartTransaction tx))
                  onConf onAbort onTimeout onError timeout Timeout.SuppressedTimeout)], ?_,
                fun _ => ⟨tx, rfl⟩, ?_⟩
              · simp [startTransaction, hengine, hc, hconn, htx, hreq, Facade.record,
                  Facade.initiateOperation]
              · simp [startTransaction, hengine, hc, hconn, htx, hreq]
            · exact ⟨[Call.getConnectorStatus OCPP_ID_OF_CONNECTOR],
                by simp [startTransaction, hengine, hc, hconn, htx, hreq, Facade.record],
                by simp [startTransaction, hengine, hc, hconn, htx, hreq], fun _ => rfl⟩
          | none =>
            have hsome := beginTransaction_engine_isSome E
              (s.record (Call.getConnectorStatus OCPP_ID_OF_CONNECTOR)) (some t) E.defaultConnectorId
              (by simp [Facade.record, hengine])
            obtain ⟨added, hadd, hops⟩ := beginTransaction_calls E
              (s.record (Call.getConnectorStatus OCPP_ID_OF_CONNECTOR)) (some t) E.defaultConnectorId
            obtain ⟨engine2, hengine2⟩ := Option.isSome_iff_exists.1 hsome
            have hst := startTransaction_no_transaction E s engine connector t onConf onAbort onTimeout
              onError timeout hengine hc hconn htx
            generalize (beginTransaction E (s.record (Call.getConnectorStatus OCPP_ID_OF_CONNECTOR))
                (some t) E.defaultConnectorId).2 = s2 at hst hadd hengine2
            cases hafter : s2.connectorTransaction OCPP_ID_OF_CONNECTOR with
            | none =>
              rw [hafter] at hst
              refine ⟨Call.getConnectorStatus OCPP_ID_OF_CONNECTOR :: added, ?_, ?_, ?_⟩
              · rw [hst]
                simp [hadd, Facade.record]
              · rw [hst]
                simp
              · intro _
                exact (initiatedOperations_append [Call.getConnectorStatus OCPP_ID_OF_CONNECTOR] added).trans
                  (by rw [hops]; rfl)
            | some tx =>
              rw [hafter] at hst
              refine ⟨Call.getConnectorStatus OCPP_ID_OF_CONNECTOR :: (added ++ [Call.initiateOperation
                (configureOperation (makeOcppOperation (OcppMessage.StartTransaction tx))
                  onConf onAbort onTimeout onError timeout Timeout.SuppressedTimeout)]), ?_, ?_, ?_⟩
              · rw [hst]
                simp [Facade.initiateOperation, hengine2, hadd, Facade.record]
              · intro _
                refine ⟨tx, ?_⟩
                have := initiatedOperations_append
                  (Call.getConnectorStatus OCPP_ID_OF_CONNECTOR :: added) [Call.initiateOperation
                    (configureOperation (makeOcppOperation (OcppMessage.StartTransaction tx))
                      onConf onAbort onTimeout onError timeout Timeout.SuppressedTimeout)]
                rw [List.cons_append] at this
                rw [this]
                have h1 := initiatedOperations_append [Call.getConnectorStatus OCPP_ID_OF_CONNECTOR] added
                rw [List.singleton_append] at h1
                rw [h1, hops]
                rfl
              · rw [hst]
                simp

/-- When `startTransaction` returns true. -/
theorem startTransaction_true_iff (E : Env) (s : Facade) (idTag : Option CStr)
    (onConf onAbort onTimeout onError : Callback) (timeout : Option Timeout) :
    (startTransaction E s idTag onConf onAbort onTimeout onError timeout).1 = true ↔
      ∃ engine t connector, s.ocppEngine = some engine ∧ idTag = some t
        ∧ t.length ≤ E.IDTAG_LEN_MAX
        ∧ engine.model.getConnectorStatus OCPP_ID_OF_CONNECTOR = some connector
        ∧ ((∃ tx, connector.transaction = some tx
              ∧ (engine.model.transactions tx).startRequested = false)
          ∨ (connector.transaction = none
              ∧ ∃ tx, (beginTransaction E s (some t) E.defaultConnectorId).2.connectorTransaction
                  OCPP_ID_OF_CONNECTOR = some tx)) := by
  cases hengine : s.ocppEngine with
  | none => simp [startTransaction, hengine]
  | some engine =>
    cases idTag with
    | none => simp [startTransaction, hengine]
    | some t =>
      by_cases hc : strnlen t (E.IDTAG_LEN_MAX + 2) > E.IDTAG_LEN_MAX
      · have hlen : ¬ t.length ≤ E.IDTAG_LEN_MAX := fun h => strnlen_check_valid _ t h hc
        simp [startTransaction, hengine, hc, hlen]
      · have hlen : t.length ≤ E.IDTAG_LEN_MAX := by
          by_contra h
          exact hc ((strnlen_check_iff _ t).2 (by omega))
        cases hconn : engine.model.getConnectorStatus OCPP_ID_OF_CONNECTOR with
        | none => simp [startTransaction, hengine, hc, hconn]
        | some connector =>
          cases htx : connector.transaction with
          | some tx =>
            cases hreq : (engine.model.transactions tx).startRequested <;>
              simp [startTransaction, hengine, hc, hconn, htx, hreq, hlen]
          | none =>
            have hct : (beginTransaction E (s.record (Call.getConnectorStatus OCPP_ID_OF_CONNECTOR))
                (some t) E.defaultConnectorId).2.connectorTransaction OCPP_ID_OF_CONNECTOR =
                (beginTransaction E s (some t) E.defaultConnectorId).2.connectorTransaction
                  OCPP_ID_OF_CONNECTOR := by
              simp only [Facade.connectorTransaction, beginTransaction_record_engine]
            have hst := startTransaction_no_transaction E s engine connector t onConf onAbort
              onTimeout onError timeout hengine hc hconn htx
            rw [hct] at hst
            cases hafter : (beginTransaction E s (some t) E.defaultConnectorId).2.connectorTransaction
                OCPP_ID_OF_CONNECTOR <;>
              simp [hst, hafter, hlen, htx, hconn]

/-- C9: `startTransaction` returns true if and only if the engine is
initialised, the idTag is valid, connector 1 exists, and either connector 1
holds a Transaction whose start has not been requested, or it holds none and
holds one after `beginTransaction`.  The log is only extended, and the added
calls contain an `initiateOperation` of a StartTransaction Operation if and
only if true is returned; where false is returned they contain no
`initiateOperation` at all.  In particular, where the existing Transaction has
its start requested, false is returned and the engine, with the idTag of the
Transaction, is unchanged; and where connector 1 holds no Transaction after
`beginTransaction` (the store is full), false is returned. -/
theorem startTransaction_iff (E : Env) (s : Facade) (idTag : Option CStr)
    (onConf onAbort onTimeout onError : Callback) (timeout : Option Timeout) :
    ((startTransaction E s idTag onConf onAbort onTimeout onError timeout).1 = true ↔
      ∃ engine t connector, s.ocppEngine = some engine ∧ idTag = some t
        ∧ t.length ≤ E.IDTAG_LEN_MAX
        ∧ engine.model.getConnectorStatus OCPP_ID_OF_CONNECTOR = some connector
        ∧ ((∃ tx, connector.transaction = some tx
              ∧ (engine.model.transactions tx).startRequested = false)
          ∨ (connector.transaction = none
              ∧ ∃ tx, (beginTransaction E s (some t) E.defaultConnectorId).2.connectorTransaction
                  OCPP_ID_OF_CONNECTOR = some tx)))
    ∧ (startTransaction E s idTag onConf onAbort onTimeout onError timeout).2.calls =
        s.calls ++ newCalls s (startTransaction E s idTag onConf onAbort onTimeout onError timeout).2
    ∧ ((∃ op tx, op ∈ initiatedOperations
            (newCalls s (startTransaction E s idTag onConf onAbort onTimeout onError timeout).2)
          ∧ op.message = OcppMessage.StartTransaction tx) ↔
        (startTransaction E s idTag onConf onAbort onTimeout onError timeout).1 = true)
    ∧ ((startTransaction E s idTag onConf onAbort onTimeout onError timeout).1 = false →
        initiatedOperations
          (newCalls s (startTransaction E s idTag onConf onAbort onTimeout onError timeout).2) = [])
    ∧ (∀ engine connector tx, s.ocppEngine = some engine →
        engine.model.getConnectorStatus OCPP_ID_OF_CONNECTOR = some connector →
        connector.transaction = some tx →
        (engine.model.transactions tx).startRequested = true →
        (startTransaction E s idTag onConf onAbort onTimeout onError timeout).1 = false
        ∧ (startTransaction E s idTag onConf onAbort onTimeout onError timeout).2.ocppEngine =
            some engine)
    ∧ (∀ engine t connector, s.ocppEngine = some engine → idTag = some t →
        engine.model.getConnectorStatus OCPP_ID_OF_CONNECTOR = some connector →
        connector.transaction = none →
        (beginTransaction E s (some t) E.defaultConnectorId).2.connectorTransaction
          OCPP_ID_OF_CONNECTOR = none →
        (startTransaction E s idTag onConf onAbort onTimeout onError timeout).1 = false) := by
  obtain ⟨added, hadd, htrue, hfalse⟩ :=
    startTransaction_log E s idTag onConf onAbort onTimeout onError timeout
  have hnew := newCalls_append s _ added hadd
  have hiff := startTransaction_true_iff E s idTag onConf onAbort onTimeout onError timeout
  refine ⟨hiff, ?_, ?_, ?_, ?_, ?_⟩
  · rw [hnew]; exact hadd
  · rw [hnew]
    constructor
    · rintro ⟨op, tx, hop, _⟩
      cases hr : (startTransaction E s idTag onConf onAbort onTimeout onError timeout).1 with
      | true => rfl
      | false => rw [hfalse hr] at hop; cases hop
    · intro hr
      obtain ⟨tx, hops⟩ := htrue hr
      exact ⟨_, tx, by rw [hops]; exact List.mem_singleton_self _,
        configureOperation_message _ _ _ _ _ _ _⟩
  · intro hr
    rw [hnew]
    exact hfalse hr
  · intro engine connector tx hengine hconn htx hreq
    cases idTag with
    | none => simp [startTransaction, hengine]
    | some t =>
      by_cases hc : strnlen t (E.IDTAG_LEN_MAX + 2) > E.IDTAG_LEN_MAX
      · simp [startTransaction, hengine, hc]
      · simp [startTransaction, hengine, hc, hconn, htx, hreq, Facade.record]
  · intro engine t connector hengine hidTag hconn htx hafter
    cases hr : (startTransaction E s idTag onConf onAbort onTimeout onError timeout).1 with
    | false => rfl
    | true =>
      obtain ⟨engine', t', connector', he, ht, _, hc', hcases⟩ := hiff.1 hr
      rw [hengine] at he
      cases he
      rw [hidTag] at ht
      cases ht
      rw [hconn] at hc'
      cases hc'
      rcases hcases with ⟨tx, htx', _⟩ | ⟨_, tx, hafter'⟩
      · rw [htx] at htx'; cases htx'
      · rw [hafter] at hafter'; cases hafter'

/-- C9 at concrete inputs: after `OCPP_initialize`, `startTransaction` with the
idTag `ABC123` returns true (connector 1 holds no Transaction and holds one
after `beginTransaction`); once that start is requested, a second
`startTransaction` returns false and leaves the engine as it is. -/
theorem startTransaction_iff_witness :
    (startTransaction env ready (some abc123) none none none none none).1 = true
    ∧ (startTransaction env started (some abc123) none none none none none).1 = false
    ∧ (startTransaction env started (some abc123) none none none none none).2.ocppEngine =
        some startedEngine :=
  ⟨(startTransaction_iff env ready (some abc123) none none none none none).1.2
      ⟨readyEngine, abc123, {}, rfl, rfl, by decide, rfl, Or.inr ⟨rfl, 0, rfl⟩⟩,
    (startTransaction_iff env started (some abc123) none none none none none).2.2.2.2.1
      startedEngine { transaction := some 0 } 0 rfl rfl rfl rfl⟩

/-- C10: `stopTransaction` returns true if and only if the engine is
initialised, connector 1 exists and holds a Transaction that `isRunning()`.
Where it returns false the facade is as it was, but for the
`getConnectorStatus` in the log: the engine is unchanged and nothing is handed
to it.  Where it returns true, it calls `endSession("Local")` of connector 1
once and then `initiateOperation` once, with a StopTransaction Operation for
that Transaction; the model handed to the engine is the one `endSession` left,
but for that Transaction, whose `stopReason` is "Local" and whose `stopIdTag`
is its idTag after `endSession` where it has one, and untouched otherwise. -/
theorem stopTransaction_iff (E : Env) (s : Facade)
    (onConf onAbort onTimeout onError : Callback) (timeout : Option Timeout) :
    ((stopTransaction E s onConf onAbort onTimeout onError timeout).1 = true ↔
      ∃ engine connector tx, s.ocppEngine = some engine
        ∧ engine.model.getConnectorStatus OCPP_ID_OF_CONNECTOR = some connector
        ∧ connector.transaction = some tx
        ∧ E.isRunning (engine.model.transactions tx) = true)
    ∧ ((stopTransaction E s onConf onAbort onTimeout onError timeout).1 = false →
        (stopTransaction E s onConf onAbort onTimeout onError timeout).2.ocppEngine = s.ocppEngine
        ∧ ((stopTransaction E s onConf onAbort onTimeout onError timeout).2 = s
          ∨ (stopTransaction E s onConf onAbort onTimeout onError timeout).2 =
              s.record (Call.getConnectorStatus OCPP_ID_OF_CONNECTOR))
        ∧ initiatedOperations
            (newCalls s (stopTransaction E s onConf onAbort onTimeout onError timeout).2) = []
        ∧ endedSessions
            (newCalls s (stopTransaction E s onConf onAbort onTimeout onError timeout).2) = [])
    ∧ (∀ engine connector tx, s.ocppEngine = some engine →
        engine.model.getConnectorStatus OCPP_ID_OF_CONNECTOR = some connector →
        connector.transaction = some tx →
        E.isRunning (engine.model.transactions tx) = true →
        ∃ (op : OcppOperation) (final : OcppModel),
          stopTransaction E s onConf onAbort onTimeout onError timeout =
            (true, { s with
              calls := s.calls ++ [Call.getConnectorStatus OCPP_ID_OF_CONNECTOR,
                Call.endSession OCPP_ID_OF_CONNECTOR (some "Local".toList),
                Call.initiateOperation op],
              ocppEngine := some (E.initiateOperation { engine with model := final } op) })
          ∧ op = configureOperation (makeOcppOperation (OcppMessage.StopTransaction tx))
              onConf onAbort onTimeout onError timeout Timeout.SuppressedTimeout
          ∧ op.message = OcppMessage.StopTransaction tx
          ∧ final = { E.endSession engine.model OCPP_ID_OF_CONNECTOR (some "Local".toList) with
                      transactions := final.transactions }
          ∧ final.transactions tx =
              { (E.endSession engine.model OCPP_ID_OF_CONNECTOR (some "Local".toList)).transactions tx with
                stopReason := some "Local".toList,
                stopIdTag :=
                  match ((E.endSession engine.model OCPP_ID_OF_CONNECTOR
                      (some "Local".toList)).transactions tx).idTag with
                  | some idTag => some idTag
                  | none => ((E.endSession engine.model OCPP_ID_OF_CONNECTOR
                      (some "Local".toList)).transactions tx).stopIdTag }
          ∧ (∀ r, r ≠ tx → final.transactions r =
              (E.endSession engine.model OCPP_ID_OF_CONNECTOR (some "Local".toList)).transactions r)) := by
  refine ⟨?_, ?_, ?_⟩
  · unfold stopTransaction
    cases hengine : s.ocppEngine with
    | none => simp
    | some engine =>
      cases hconn : engine.model.getConnectorStatus OCPP_ID_OF_CONNECTOR with
      | none => simp [hconn]
      | some connector =>
        cases htx : connector.transaction with
        | none => simp [hconn, htx]
        | some tx =>
          cases hrun : E.isRunning (engine.model.transactions tx) <;> simp [hconn, htx, hrun]
  · have hsame : newCalls s s = [] := by simp [newCalls]
    have hrec : ∀ c, newCalls s (s.record c) = [c] := fun c => newCalls_append s _ [c] rfl
    have hmain : (stopTransaction E s onConf onAbort onTimeout onError timeout).1 = false →
        (stopTransaction E s onConf onAbort onTimeout onError timeout).2.ocppEngine = s.ocppEngine
        ∧ ((stopTransaction E s onConf onAbort onTimeout onError timeout).2 = s
          ∨ (stopTransaction E s onConf onAbort onTimeout onError timeout).2 =
              s.record (Call.getConnectorStatus OCPP_ID_OF_CONNECTOR)) := by
      unfold stopTransaction
      cases hengine : s.ocppEngine with
      | none => simp [hengine]
      | some engine =>
        cases hconn : engine.model.getConnectorStatus OCPP_ID_OF_CONNECTOR with
        | none => simp [hconn, Facade.record, hengine]
        | some connector =>
          cases htx : connector.transaction with
          | none => simp [hconn, htx, Facade.record, hengine]
          | some tx =>
            cases hrun : E.isRunning (engine.model.transactions tx) <;>
              simp [hconn, htx, hrun, Facade.record, hengine]
    intro hr
    obtain ⟨he, hs⟩ := hmain hr
    refine ⟨he, hs, ?_⟩
    rcases hs with hs | hs
    · rw [hs, hsame]
      exact ⟨rfl, rfl⟩
    · rw [hs, hrec]
      exact ⟨rfl, rfl⟩
  · intro engine connector tx hengine hconn htx hrun
    refine ⟨_, OcppModel.updateTransaction
      (match ((E.endSession engine.model OCPP_ID_OF_CONNECTOR (some "Local".toList)).transactions tx).idTag with
        | some idTag =>
          (E.endSession engine.model OCPP_ID_OF_CONNECTOR (some "Local".toList)).updateTransaction tx
            (fun x => { x with stopIdTag := some idTag })
        | none => E.endSession engine.model OCPP_ID_OF_CONNECTOR (some "Local".toList))
      tx (fun x => { x with stopReason := some "Local".toList }), ?_, rfl, ?_, ?_, ?_, ?_⟩
    · simp [stopTransaction, hengine, hconn, htx, hrun, Facade.initiateOperation, Facade.record]
    · cases timeout <;> rfl
    · cases h : ((E.endSession engine.model OCPP_ID_OF_CONNECTOR (some "Local".toList)).transactions tx).idTag <;>
        simp [OcppModel.updateTransaction, h]
    · cases h : ((E.endSession engine.model OCPP_ID_OF_CONNECTOR (some "Local".toList)).transactions tx).idTag <;>
        simp [OcppModel.updateTransaction, h]
    · intro r hr
      cases h : ((E.endSession engine.model OCPP_ID_OF_CONNECTOR (some "Local".toList)).transactions tx).idTag <;>
        simp [OcppModel.updateTransaction, h, hr]

/-- C10 at concrete inputs: with the Transaction of connector 1 running,
`stopTransaction` returns true; with a session that is begun but whose start is
not requested, it returns false. -/
theorem stopTransaction_iff_witness :
    (stopTransaction env started none none none none none).1 = true
    ∧ (stopTransaction env begun none none none none none).1 = false :=
  ⟨(stopTransaction_iff env started none none none none none).1.2
      ⟨startedEngine, { transaction := some 0 }, 0, rfl, rfl, rfl, rfl⟩,
    by
      have h := (stopTransaction_iff env begun none none none none none).1
      cases hr : (stopTransaction env begun none none none none none).1 with
      | false => rfl
      | true =>
        obtain ⟨engine, connector, tx, he, hc, ht, hrun⟩ := h.1 hr
        have he' : engine = begunEngine := (Option.some.inj he).symm
        subst he'
        have hc' : connector = { transaction := some 0 } := (Option.some.inj hc).symm
        subst hc'
        have ht' : tx = 0 := (Option.some.inj ht).symm
        subst ht'
        exact absurd hrun (by decide)⟩

/-- C11: with the engine initialised and both connector 0 and connector
`connectorId` present, `isOperative(connectorId)` returns true if and only if
neither connector 0 nor connector `connectorId` has availability Inoperative;
`isOperative(0)` returns true if and only if connector 0 is not Inoperative.
The call looks up connector 0 and connector `connectorId` and leaves the engine
as it is. -/
theorem isOperative_iff (s : Facade) (engine : OcppEngine)
    (chargePoint connector : ConnectorStatus) (connectorId : Nat)
    (hengine : s.ocppEngine = some engine)
    (hcp : engine.model.getConnectorStatus OCPP_ID_OF_CP = some chargePoint)
    (hconn : engine.model.getConnectorStatus connectorId = some connector) :
    ((isOperative s connectorId).1 = true ↔
      chargePoint.availability ≠ Availability.Inoperative
        ∧ connector.availability ≠ Availability.Inoperative)
    ∧ ((isOperative s OCPP_ID_OF_CP).1 = true ↔
        chargePoint.availability ≠ Availability.Inoperative)
    ∧ (isOperative s connectorId).2.calls =
        s.calls ++ [Call.getConnectorStatus OCPP_ID_OF_CP, Call.getConnectorStatus connectorId]
    ∧ (isOperative s connectorId).2.ocppEngine = s.ocppEngine := by
  refine ⟨?_, ?_, ?_, ?_⟩
  · simp [isOperative, hengine, hcp, hconn]
  · simp [isOperative, hengine, hcp]
  · simp [isOperative, hengine, hcp, hconn, Facade.record]
  · simp [isOperative, hengine, hcp, hconn, Facade.record]

/-- C11 at concrete inputs: after `OCPP_initialize` both connectors are
Operative and `isOperative(1)` returns true; with connector 1 Inoperative it
returns false while `isOperative(0)` returns true. -/
theorem isOperative_iff_witness :
    ready.ocppEngine = some readyEngine
    ∧ readyEngine.model.getConnectorStatus OCPP_ID_OF_CP = some {}
    ∧ readyEngine.model.getConnectorStatus 1 = some {}
    ∧ (isOperative ready 1).1 = true
    ∧ inoperativeEngine.model.getConnectorStatus 1 = some { availability := Availability.Inoperative }
    ∧ (isOperative inoperative 1).1 = false
    ∧ (isOperative inoperative OCPP_ID_OF_CP).1 = true :=
  have h1 := isOperative_iff ready readyEngine {} {} 1 rfl rfl rfl
  have h2 := isOperative_iff inoperative inoperativeEngine {}
    { availability := Availability.Inoperative } 1 rfl rfl rfl
  ⟨rfl, rfl, rfl, h1.1.2 ⟨by decide, by decide⟩, rfl,
    Bool.eq_false_iff.2 (fun h => (h2.1.1 h).2 rfl), h2.2.1.2 (by decide)⟩

/-- What `endTransaction` does behind its two guards: it reads the session idTag,
calls `endSession` once and returns whether there was a session idTag. -/
theorem endTransaction_behind_guards (E : Env) (s : Facade) (engine : OcppEngine)
    (connector : ConnectorStatus) (reason : Option CStr) (connectorId : Nat)
    (hengine : s.ocppEngine = some engine)
    (hconn : engine.model.getConnectorStatus connectorId = some connector) :
    endTransaction E s reason connectorId =
      ((E.getSessionIdTag engine.model connectorId).isSome, { s with
        calls := s.calls ++ [Call.getConnectorStatus connectorId, Call.endSession connectorId reason],
        ocppEngine := some { engine with model := E.endSession engine.model connectorId reason } }) := by
  simp [endTransaction, hengine, hconn, Facade.record]

/-- C14: with the engine initialised and an existing connector,
`endTransaction(reason, connectorId)` returns true exactly when
`getSessionIdTag()` of the connector is non-null in the model as it is when the
call is made, before `endSession`, and false otherwise; in both cases it calls
`endSession(reason)` of that connector exactly once: the calls it adds to the
log are one `getConnectorStatus` and one `endSession`, and the model it leaves
is the one `endSession` returns. -/
theorem endTransaction_result (E : Env) (s : Facade) (engine : OcppEngine)
    (connector : ConnectorStatus) (reason : Option CStr) (connectorId : Nat)
    (hengine : s.ocppEngine = some engine)
    (hconn : engine.model.getConnectorStatus connectorId = some connector) :
    ((endTransaction E s reason connectorId).1 = true ↔
      E.getSessionIdTag engine.model connectorId ≠ none)
    ∧ ((endTransaction E s reason connectorId).1 = false ↔
      E.getSessionIdTag engine.model connectorId = none)
    ∧ (endTransaction E s reason connectorId).2.calls =
        s.calls ++ [Call.getConnectorStatus connectorId, Call.endSession connectorId reason]
    ∧ endedSessions (newCalls s (endTransaction E s reason connectorId).2) = [(connectorId, reason)]
    ∧ (endTransaction E s reason connectorId).2.ocppEngine =
        some { engine with model := E.endSession engine.model connectorId reason } := by
  rw [endTransaction_behind_guards E s engine connector reason connectorId hengine hconn]
  refine ⟨?_, ?_, rfl, ?_, rfl⟩
  · cases E.getSessionIdTag engine.model connectorId <;> simp
  · cases E.getSessionIdTag engine.model connectorId <;> simp
  · rw [newCalls_append s _ _ rfl]
    rfl

/-- C14 at concrete inputs: with a running session on connector 1,
`endTransaction` returns true although the session idTag is null once the
session is ended; with no session it returns false; `endSession` is called once
in both cases. -/
theorem endTransaction_result_witness :
    started.ocppEngine = some startedEngine
    ∧ startedEngine.model.getConnectorStatus 1 = some { transaction := some 0 }
    ∧ env.getSessionIdTag startedEngine.model 1 = some abc123
    ∧ env.getSessionIdTag (env.endSession startedEngine.model 1 (some "Local".toList)) 1 = none
    ∧ (endTransaction env started (some "Local".toList) 1).1 = true
    ∧ endedSessions (newCalls started (endTransaction env started (some "Local".toList) 1).2) =
        [(1, some "Local".toList)]
    ∧ ready.ocppEngine = some readyEngine
    ∧ readyEngine.model.getConnectorStatus 1 = some {}
    ∧ (endTransaction env ready (some "Local".toList) 1).1 = false
    ∧ endedSessions (newCalls ready (endTransaction env ready (some "Local".toList) 1).2) =
        [(1, some "Local".toList)] :=
  have h1 := endTransaction_result env started startedEngine { transaction := some 0 }
    (some "Local".toList) 1 rfl rfl
  have h2 := endTransaction_result env ready readyEngine {} (some "Local".toList) 1 rfl rfl
  ⟨rfl, rfl, rfl, rfl, h1.1.2 (by decide), h1.2.2.2.1, rfl, rfl, h2.2.1.2 rfl, h2.2.2.2.1⟩
/-- The timeout of an Operation after the `if (timeout) ... else ...` statement:
the timeout of the caller where there is one, the default otherwise. -/
theorem configureOperation_timeout (op : OcppOperation) (onConf onAbort onTimeout onError : Callback)
    (timeout : Option Timeout) (dflt : Timeout) :
    (configureOperation op onConf onAbort onTimeout onError timeout dflt).timeout =
      some (timeout.getD dflt) := by
  cases timeout <;> rfl

/-- A facade state has added no call to its own log. -/
theorem newCalls_self (s : Facade) : newCalls s s = [] := by
  simp [newCalls]

/-- The log of `bootNotification` with a payload: one `initiateOperation` where
the engine is initialised, nothing otherwise. -/
theorem bootNotification_payload_log (E : Env) (s : Facade)
    (payload : Option (List (String × CStr)))
    (onConf onAbort onTimeout onError : Callback) (timeout : Option Timeout) :
    initiatedOperations
        (newCalls s (bootNotification_payload E s payload onConf onAbort onTimeout onError timeout)) =
      if s.ocppEngine.isSome then
        [configureOperation (makeOcppOperation (OcppMessage.BootNotification payload))
          onConf onAbort onTimeout onError timeout Timeout.SuppressedTimeout]
      else [] := by
  cases hengine : s.ocppEngine with
  | none =>
    have h : bootNotification_payload E s payload onConf onAbort onTimeout onError timeout = s := by
      simp [bootNotification_payload, hengine]
    rw [h, newCalls_self]
    rfl
  | some engine =>
    have h : (bootNotification_payload E s payload onConf onAbort onTimeout onError timeout).calls =
        s.calls ++ [Call.initiateOperation
          (configureOperation (makeOcppOperation (OcppMessage.BootNotification payload))
            onConf onAbort onTimeout onError timeout Timeout.SuppressedTimeout)] := by
      simp [bootNotification_payload, hengine, Facade.initiateOperation, Facade.record]
    rw [newCalls_append s _ _ h]
    rfl

/-- The log of `authorize`: one `initiateOperation` where the engine is
initialised and the idTag is valid, nothing otherwise. -/
theorem authorize_log (E : Env) (s : Facade) (idTag : Option CStr)
    (onConf onAbort onTimeout onError : Callback) (timeout : Option Timeout) :
    (∃ t, idTag = some t ∧ s.ocppEngine.isSome = true ∧ t.length ≤ E.IDTAG_LEN_MAX
        ∧ initiatedOperations
            (newCalls s (authorize E s idTag onConf onAbort onTimeout onError timeout)) =
          [configureOperation (makeOcppOperation (OcppMessage.Authorize t))
            onConf onAbort onTimeout onError timeout (Timeout.FixedTimeout 20000)])
    ∨ ((s.ocppEngine = none ∨ idTag = none ∨ ∃ t, idTag = some t ∧ E.IDTAG_LEN_MAX < t.length)
        ∧ initiatedOperations
            (newCalls s (authorize E s idTag onConf onAbort onTimeout onError timeout)) = []) := by
  cases hengine : s.ocppEngine with
  | none =>
    have h : authorize E s idTag onConf onAbort onTimeout onError timeout = s := by
      simp [authorize, hengine]
    exact Or.inr ⟨Or.inl rfl, by rw [h, newCalls_self]; rfl⟩
  | some engine =>
    cases idTag with
    | none =>
      have h : authorize E s none onConf onAbort onTimeout onError timeout = s := by
        simp [authorize, hengine]
      exact Or.inr ⟨Or.inr (Or.inl rfl), by rw [h, newCalls_self]; rfl⟩
    | some t =>
      by_cases hc : strnlen t (E.IDTAG_LEN_MAX + 2) > E.IDTAG_LEN_MAX
      · have h : authorize E s (some t) onConf onAbort onTimeout onError timeout = s := by
          simp [authorize, hengine, hc]
        exact Or.inr ⟨Or.inr (Or.inr ⟨t, rfl, (strnlen_check_iff _ t).1 hc⟩),
          by rw [h, newCalls_self]; rfl⟩
      · have hlen : t.length ≤ E.IDTAG_LEN_MAX := by
          by_contra h
          exact hc ((strnlen_check_iff _ t).2 (by omega))
        have h : (authorize E s (some t) onConf onAbort onTimeout onError timeout).calls =
            s.calls ++ [Call.initiateOperation
              (configureOperation (makeOcppOperation (OcppMessage.Authorize t))
                onConf onAbort onTimeout onError timeout (Timeout.FixedTimeout 20000))] := by
          simp [authorize, hengine, hc, Facade.record]
        exact Or.inl ⟨t, rfl, rfl, hlen, by rw [newCalls_append s _ _ h]; rfl⟩

/-- The log of `stopTransaction`: the Operations it hands to the engine are at
most one StopTransaction Operation, configured with the arguments of the call. -/
theorem stopTransaction_log (E : Env) (s : Facade)
    (onConf onAbort onTimeout onError : Callback) (timeout : Option Timeout) :
    ((stopTransaction E s onConf onAbort onTimeout onError timeout).1 = false
      ∧ initiatedOperations
        (newCalls s (stopTransaction E s onConf onAbort onTimeout onError timeout).2) = [])
    ∨ ((stopTransaction E s onConf onAbort onTimeout onError timeout).1 = true
      ∧ ∃ tx, initiatedOperations
        (newCalls s (stopTransaction E s onConf onAbort onTimeout onError timeout).2) =
        [configureOperation (makeOcppOperation (OcppMessage.StopTransaction tx))
          onConf onAbort onTimeout onError timeout Timeout.SuppressedTimeout]) := by
  have hrec : ∀ c, newCalls s (s.record c) = [c] := fun c => newCalls_append s _ [c] rfl
  cases hengine : s.ocppEngine with
  | none =>
    have h : (stopTransaction E s onConf onAbort onTimeout onError timeout).2 = s := by
      simp [stopTransaction, hengine]
    exact Or.inl ⟨by simp [stopTransaction, hengine], by rw [h, newCalls_self]; rfl⟩
  | some engine =>
    cases hconn : engine.model.getConnectorStatus OCPP_ID_OF_CONNECTOR with
    | none =>
      have h : (stopTransaction E s onConf onAbort onTimeout onError timeout).2 =
          s.record (Call.getConnectorStatus OCPP_ID_OF_CONNECTOR) := by
        simp [stopTransaction, hengine, hconn]
      exact Or.inl ⟨by simp [stopTransaction, hengine, hconn], by rw [h, hrec]; rfl⟩
    | some connector =>
      cases htx : connector.transaction with
      | none =>
        have h : (stopTransaction E s onConf onAbort onTimeout onError timeout).2 =
            s.record (Call.getConnectorStatus OCPP_ID_OF_CONNECTOR) := by
          simp [stopTransaction, hengine, hconn, htx]
        exact Or.inl ⟨by simp [stopTransaction, hengine, hconn, htx], by rw [h, hrec]; rfl⟩
      | some tx =>
        cases hrun : E.isRunning (engine.model.transactions tx) with
        | false =>
          have h : (stopTransaction E s onConf onAbort onTimeout onError timeout).2 =
              s.record (Call.getConnectorStatus OCPP_ID_OF_CONNECTOR) := by
            simp [stopTransaction, hengine, hconn, htx, hrun]
          exact Or.inl ⟨by simp [stopTransaction, hengine, hconn, htx, hrun], by rw [h, hrec]; rfl⟩
        | true =>
          have h : (stopTransaction E s onConf onAbort onTimeout onError timeout).2.calls =
              s.calls ++ [Call.getConnectorStatus OCPP_ID_OF_CONNECTOR,
                Call.endSession OCPP_ID_OF_CONNECTOR (some "Local".toList),
                Call.initiateOperation
                  (configureOperation (makeOcppOperation (OcppMessage.StopTransaction tx))
                    onConf onAbort onTimeout onError timeout Timeout.SuppressedTimeout)] := by
            simp [stopTransaction, hengine, hconn, htx, hrun, Facade.initiateOperation,
              Facade.record]
          exact Or.inr ⟨by simp [stopTransaction, hengine, hconn, htx, hrun],
            tx, by rw [newCalls_append s _ _ h]; rfl⟩

/-- The function `bootNotification` with model and vendor is
`bootNotification` with the payload made of them. -/
theorem bootNotification_eq_payload (E : Env) (s : Facade) (m v : CStr)
    (onConf onAbort onTimeout onError : Callback) (timeout : Option Timeout) :
    bootNotification E s m v onConf onAbort onTimeout onError timeout =
      bootNotification_payload E s (some [("chargePointModel", m), ("chargePointVendor", v)])
        onConf onAbort onTimeout onError timeout := by
  cases hengine : s.ocppEngine <;> simp [bootNotification, bootNotification_payload, hengine]

/-- The Operations that the four functions hand to the engine carry the timeout
of the caller where there is one and the given default otherwise. -/
theorem handedOperations_timeout (E : Env) (s : Facade)
    (onConf onAbort onTimeout onError : Callback) (timeout : Option Timeout) :
    (∀ p, carryTimeout (handedOperations s
        (bootNotification_payload E s p onConf onAbort onTimeout onError timeout))
        (timeout.getD Timeout.SuppressedTimeout))
    ∧ (∀ idTag, carryTimeout (handedOperations s
        (authorize E s idTag onConf onAbort onTimeout onError timeout))
        (timeout.getD (Timeout.FixedTimeout 20000)))
    ∧ (∀ idTag, carryTimeout (handedOperations s
        (startTransaction E s idTag onConf onAbort onTimeout onError timeout).2)
        (timeout.getD Timeout.SuppressedTimeout))
    ∧ carryTimeout (handedOperations s
        (stopTransaction E s onConf onAbort onTimeout onError timeout).2)
        (timeout.getD Timeout.SuppressedTimeout) := by
  refine ⟨?_, ?_, ?_, ?_⟩
  · intro p op hop
    unfold handedOperations at hop
    rw [bootNotification_payload_log] at hop
    split at hop
    · rw [List.mem_singleton.1 hop]
      exact configureOperation_timeout _ _ _ _ _ _ _
    · cases hop
  · intro idTag op hop
    unfold handedOperations at hop
    rcases authorize_log E s idTag onConf onAbort onTimeout onError timeout with
      ⟨t, _, _, _, h⟩ | ⟨_, h⟩
    · rw [h] at hop
      rw [List.mem_singleton.1 hop]
      exact configureOperation_timeout _ _ _ _ _ _ _
    · rw [h] at hop
      cases hop
  · intro idTag op hop
    unfold handedOperations at hop
    obtain ⟨added, hadd, htrue, hfalse⟩ :=
      startTransaction_log E s idTag onConf onAbort onTimeout onError timeout
    rw [newCalls_append s _ added hadd] at hop
    cases hr : (startTransaction E s idTag onConf onAbort onTimeout onError timeout).1 with
    | false =>
      rw [hfalse hr] at hop
      cases hop
    | true =>
      obtain ⟨tx, h⟩ := htrue hr
      rw [h] at hop
      rw [List.mem_singleton.1 hop]
      exact configureOperation_timeout _ _ _ _ _ _ _
  · intro op hop
    unfold handedOperations at hop
    rcases stopTransaction_log E s onConf onAbort onTimeout onError timeout with
      ⟨_, h⟩ | ⟨_, tx, h⟩
    · rw [h] at hop
      cases hop
    · rw [h] at hop
      rw [List.mem_singleton.1 hop]
      exact configureOperation_timeout _ _ _ _ _ _ _

/-- Recording a call leaves the run-tasks flag as it is. -/
theorem record_runOcppTasks (s : Facade) (c : Call) :
    (s.record c).runOcppTasks = s.runOcppTasks := rfl

/-- Handing an Operation to the engine leaves the run-tasks flag as it is, where
the engine does. -/
theorem initiateOperation_runOcppTasks (E : Env) (hE : E.keepsRunOcppTasks) (s : Facade)
    (op : OcppOperation) : (s.initiateOperation E op).runOcppTasks = s.runOcppTasks := by
  unfold Facade.initiateOperation Facade.runOcppTasks
  cases h : s.ocppEngine with
  | none => simp [h]
  | some engine => simp [Facade.record, hE.2]

/-- The connector setters leave the run-tasks flag as it is. -/
theorem withConnector_runOcppTasks (s : Facade) (connectorId : Nat)
    (f : ConnectorStatus → ConnectorStatus) :
    (withConnector s connectorId f).runOcppTasks = s.runOcppTasks := by
  unfold withConnector
  repeat' split
  all_goals simp_all [Facade.runOcppTasks, Facade.record]

/-- The function `beginTransaction` leaves the run-tasks flag as it is. -/
theorem beginTransaction_runOcppTasks (E : Env) (s : Facade) (idTag : Option CStr)
    (connectorId : Nat) :
    (beginTransaction E s idTag connectorId).2.runOcppTasks = s.runOcppTasks := by
  unfold beginTransaction
  repeat' split
  all_goals simp_all [Facade.runOcppTasks, Facade.record]

/-- The function `startTransaction` leaves the run-tasks flag as it is, where
the engine does. -/
theorem startTransaction_runOcppTasks (E : Env) (hE : E.keepsRunOcppTasks) (s : Facade)
    (idTag : Option CStr) (onConf onAbort onTimeout onError : Callback) (timeout : Option Timeout) :
    (startTransaction E s idTag onConf onAbort onTimeout onError timeout).2.runOcppTasks
      = s.runOcppTasks := by
  unfold startTransaction
  repeat' split
  all_goals try simp only []
  all_goals try split
  all_goals simp_all [initiateOperation_runOcppTasks, beginTransaction_runOcppTasks,
    record_runOcppTasks]
  all_goals simp_all [Facade.runOcppTasks, Facade.record]

/-- The function `stopTransaction` leaves the run-tasks flag as it is, where
the engine does. -/
theorem stopTransaction_runOcppTasks (E : Env) (hE : E.keepsRunOcppTasks) (s : Facade)
    (onConf onAbort onTimeout onError : Callback) (timeout : Option Timeout) :
    (stopTransaction E s onConf onAbort onTimeout onError timeout).2.runOcppTasks
      = s.runOcppTasks := by
  unfold stopTransaction
  repeat' split
  all_goals simp_all [initiateOperation_runOcppTasks, record_runOcppTasks]
  all_goals simp_all [Facade.runOcppTasks, Facade.record]

/-- A facade call other than `OCPP_initialize`, `OCPP_deinitialize` and
`OCPP_loop` leaves the Boot Gate and the run-tasks flag as they are, where the
engine leaves the flag. -/
theorem step_keeps_gate_and_flag (E : Env) (hE : E.keepsRunOcppTasks) (s : Facade) (c : FacadeCall)
    (hdeinit : c ≠ FacadeCall.OCPP_deinitialize) (hloop : c ≠ FacadeCall.OCPP_loop)
    (hinit : ∀ V n f, c ≠ FacadeCall.OCPP_initialize V n f) :
    (step E s c).OCPP_booted = s.OCPP_booted ∧ (step E s c).runOcppTasks = s.runOcppTasks := by
  cases c
  case OCPP_deinitialize => exact absurd rfl hdeinit
  case OCPP_loop => exact absurd rfl hloop
  case OCPP_initialize V n f => exact absurd rfl (hinit V n f)
  case startTransaction =>
    exact ⟨startTransaction_booted E s _ _ _ _ _ _, startTransaction_runOcppTasks E hE s _ _ _ _ _ _⟩
  case stopTransaction =>
    exact ⟨stopTransaction_booted E s _ _ _ _ _, stopTransaction_runOcppTasks E hE s _ _ _ _ _⟩
  case beginTransaction =>
    exact ⟨beginTransaction_booted E s _ _, beginTransaction_runOcppTasks E s _ _⟩
  all_goals
    simp only [step, bootNotification, bootNotification_payload, authorize,
      endTransaction, isTransactionRunning, ocppPermitsCharge, setConnectorPluggedInput,
      setEnergyMeterInput, setPowerMeterInput, setSmartChargingOutput, setEvReadyInput,
      setEvseReadyInput, addErrorCodeInput, addMeterValueInput, addMeterValueInput_sampler,
      setOnResetNotify, setOnResetExecute, setOnUnlockConnectorInOut, setConnectorLockInOut,
      setTxBasedMeterInOut, isOperative, getTransactionId, getTransactionIdTag, getOcppEngine,
      setOnSetChargingProfileRequest, setOnRemoteStartTransactionSendConf,
      setOnRemoteStopTransactionReceiveReq, setOnRemoteStopTransactionSendConf,
      setOnResetSendConf, setOnResetRequest, withStatusService,
      withConnector_booted, withConnector_runOcppTasks]
    repeat' split
    all_goals simp_all [initiateOperation_booted, record_booted, initiateOperation_runOcppTasks,
      record_runOcppTasks]
    all_goals simp_all [Facade.runOcppTasks, Facade.record, hE.2]

/-- The relation between gate and engine only depends on the gate and the
run-tasks flag. -/
theorem gateInvariant_of_same (s s' : Facade) (hb : s'.OCPP_booted = s.OCPP_booted)
    (hf : s'.runOcppTasks = s.runOcppTasks) (h : gateInvariant s) : gateInvariant s' := by
  unfold gateInvariant at *
  unfold Facade.runOcppTasks at hf
  cases h1 : s.ocppEngine <;> cases h2 : s'.ocppEngine <;> simp_all

/-- The function `OCPP_loop` keeps the relation between gate and engine, where
the tick of the engine leaves the run-tasks flag. -/
theorem OCPP_loop_gateInvariant (E : Env) (hE : E.keepsRunOcppTasks) (s : Facade)
    (h : gateInvariant s) : gateInvariant (OCPP_loop E s) := by
  unfold gateInvariant at *
  unfold OCPP_loop
  cases hengine : s.ocppEngine with
  | none => simpa [hengine] using h
  | some engine =>
    rw [hengine] at h
    simp only at h
    cases hb : s.OCPP_booted with
    | true => simpa [hb, hE.1] using h
    | false =>
      cases hcs : (E.loop engine).model.chargePointStatusService with
      | none => simp [hb, hcs]
      | some cs => cases hcb : cs.booted <;> simp_all [hE.1]

/-- The function `OCPP_initialize` keeps the relation between gate and engine. -/
theorem OCPP_initialize_gateInvariant (E : Env) (s : Facade) (V_eff : CFloat)
    (num_connectors fsOpt : Nat) (h : gateInvariant s) :
    gateInvariant ( OCPP_initialize E s V_eff num_connectors fsOpt) := by
  unfold gateInvariant at *
  unfold OCPP_initialize
  cases hengine : s.ocppEngine with
  | some engine => simpa [hengine] using h
  | none =>
    rw [hengine] at h
    simp only at h
    simp [h]

/-- After `OCPP_deinitialize` there is no engine and the gate is closed. -/
theorem OCPP_deinitialize_gateInvariant (E : Env) (s : Facade) :
    gateInvariant ( OCPP_deinitialize E s) := by
  simp [gateInvariant, OCPP_deinitialize]

/-- Every facade call keeps the relation between gate and engine, where the
engine leaves the run-tasks flag to the facade. -/
theorem step_gateInvariant (E : Env) (hE : E.keepsRunOcppTasks) (s : Facade) (c : FacadeCall)
    (h : gateInvariant s) : gateInvariant (step E s c) := by
  by_cases hdeinit : c = FacadeCall.OCPP_deinitialize
  · subst hdeinit
    exact OCPP_deinitialize_gateInvariant E s
  by_cases hloop : c = FacadeCall.OCPP_loop
  · subst hloop
    exact OCPP_loop_gateInvariant E hE s h
  by_cases hinit : ∃ V n f, c = FacadeCall.OCPP_initialize V n f
  · obtain ⟨V, n, f, hc⟩ := hinit
    subst hc
    exact OCPP_initialize_gateInvariant E s V n f h
  · have hk := step_keeps_gate_and_flag E hE s c hdeinit hloop
      (fun V n f hc => hinit ⟨V, n, f, hc⟩)
    exact gateInvariant_of_same s _ hk.1 hk.2 h

/-- Every sequence of facade calls keeps the relation between gate and engine. -/
theorem run_gateInvariant (E : Env) (hE : E.keepsRunOcppTasks) (calls : List FacadeCall) :
    ∀ s : Facade, gateInvariant s → gateInvariant (run E s calls) := by
  induction calls with
  | nil => intro s h; exact h
  | cons c cs ih => intro s h; exact ih (step E s c) (step_gateInvariant E hE s c h)

/-- C12: assume that only the facade toggles the run-tasks flag of the engine
(`OcppEngine::loop` and `OcppEngine::initiateOperation` leave it as it is).
Then in every state reached from the initial state by a sequence of facade
calls (`OCPP_initialize`, `OCPP_deinitialize`, `OCPP_loop` and all others):
(a) if the engine is not initialised, `OCPP_booted` is false, so an
`OCPP_initialize` that succeeds from there leaves the gate closed and the
run-tasks flag disabled; (b) if the engine is initialised, its run-tasks flag
is enabled exactly when `OCPP_booted` is true. -/
theorem boot_gate_invariant (E : Env) (hE : E.keepsRunOcppTasks) (calls : List FacadeCall) :
    ((run E Facade.initial calls).ocppEngine = none →
      (run E Facade.initial calls).OCPP_booted = false)
    ∧ (∀ V_eff num_connectors fsOpt, (run E Facade.initial calls).ocppEngine = none →
        ( OCPP_initialize E (run E Facade.initial calls) V_eff num_connectors fsOpt).OCPP_booted
          = false
        ∧ ∃ engine,
          ( OCPP_initialize E (run E Facade.initial calls) V_eff num_connectors fsOpt).ocppEngine
            = some engine ∧ engine.runOcppTasks = false)
    ∧ (∀ engine, (run E Facade.initial calls).ocppEngine = some engine →
        (engine.runOcppTasks = true ↔ (run E Facade.initial calls).OCPP_booted = true)) := by
  have hinv : gateInvariant (run E Facade.initial calls) :=
    run_gateInvariant E hE calls Facade.initial rfl
  unfold gateInvariant at hinv
  refine ⟨?_, ?_, ?_⟩
  · intro hnone
    rw [hnone] at hinv
    exact hinv
  · intro V_eff num_connectors fsOpt hnone
    rw [hnone] at hinv
    simp only at hinv
    simp [ OCPP_initialize, hnone, hinv]
  · intro engine hsome
    rw [hsome] at hinv
    exact hinv

/-- C12 at a concrete input: in the sample environment, after
`OCPP_initialize`, a tick on which the status service does not report
`isBooted()`, a session and `OCPP_deinitialize`, the engine is null and the gate
is closed; before the `OCPP_deinitialize` the engine is there and its run-tasks
flag is the gate. -/
theorem boot_gate_invariant_witness :
    env.keepsRunOcppTasks
    ∧ (run env Facade.initial [ FacadeCall.OCPP_initialize 230 1 0, FacadeCall.OCPP_loop,
        FacadeCall.beginTransaction (some abc123) 1, FacadeCall.OCPP_deinitialize]).ocppEngine = none
    ∧ (run env Facade.initial [ FacadeCall.OCPP_initialize 230 1 0, FacadeCall.OCPP_loop,
        FacadeCall.beginTransaction (some abc123) 1, FacadeCall.OCPP_deinitialize]).OCPP_booted = false
    ∧ (∀ engine, (run env Facade.initial [ FacadeCall.OCPP_initialize 230 1 0, FacadeCall.OCPP_loop,
        FacadeCall.beginTransaction (some abc123) 1]).ocppEngine = some engine →
        (engine.runOcppTasks = true ↔
          (run env Facade.initial [ FacadeCall.OCPP_initialize 230 1 0, FacadeCall.OCPP_loop,
            FacadeCall.beginTransaction (some abc123) 1]).OCPP_booted = true)) :=
  have hE : env.keepsRunOcppTasks := ⟨fun _ => rfl, fun _ _ => rfl⟩
  ⟨hE, rfl,
    (boot_gate_invariant env hE [ FacadeCall.OCPP_initialize 230 1 0, FacadeCall.OCPP_loop,
      FacadeCall.beginTransaction (some abc123) 1, FacadeCall.OCPP_deinitialize]).1 rfl,
    (boot_gate_invariant env hE [ FacadeCall.OCPP_initialize 230 1 0, FacadeCall.OCPP_loop,
      FacadeCall.beginTransaction (some abc123) 1]).2.2⟩

/-- Recording a call leaves the status service in place. -/
theorem record_hasStatusService (s : Facade) (c : Call) (h : s.hasStatusService) :
    (s.record c).hasStatusService := h

/-- Handing an Operation to the engine leaves the status service in place. -/
theorem initiateOperation_hasStatusService (E : Env) (hE : E.keepsStatusService) (s : Facade)
    (op : OcppOperation) (h : s.hasStatusService) : (s.initiateOperation E op).hasStatusService := by
  unfold Facade.hasStatusService at *
  cases hengine : s.ocppEngine with
  | none => simp [Facade.initiateOperation, hengine]
  | some engine =>
    rw [hengine] at h
    simpa [Facade.initiateOperation, hengine, Facade.record] using hE.2.1 engine op h

/-- The connector setters leave the status service in place. -/
theorem withConnector_hasStatusService (s : Facade) (connectorId : Nat)
    (f : ConnectorStatus → ConnectorStatus) (h : s.hasStatusService) :
    (withConnector s connectorId f).hasStatusService := by
  unfold Facade.hasStatusService at *
  cases hengine : s.ocppEngine with
  | none => simp [withConnector, hengine]
  | some engine =>
    rw [hengine] at h
    simp only at h
    cases hconn : engine.model.getConnectorStatus connectorId <;>
      simp [withConnector, hengine, hconn, Facade.record, OcppModel.setConnectorStatus, h]

/-- The function `beginTransaction` leaves the status service in place. -/
theorem beginTransaction_hasStatusService (E : Env) (hE : E.keepsStatusService) (s : Facade)
    (idTag : Option CStr) (connectorId : Nat) (h : s.hasStatusService) :
    (beginTransaction E s idTag connectorId).2.hasStatusService := by
  unfold Facade.hasStatusService at *
  cases hengine : s.ocppEngine with
  | none => simp [beginTransaction, hengine]
  | some engine =>
    rw [hengine] at h
    simp only at h
    cases idTag with
    | none => simp [beginTransaction, hengine, h]
    | some t =>
      by_cases hc : strnlen t (E.IDTAG_LEN_MAX + 2) > E.IDTAG_LEN_MAX
      · simp [beginTransaction, hengine, hc, h]
      · cases hconn : engine.model.getConnectorStatus connectorId with
        | none => simp [beginTransaction, hc, hconn, Facade.record, hengine, h]
        | some connector =>
          simpa [beginTransaction, hengine, hc, hconn, Facade.record] using
            hE.2.2.1 engine.model connectorId t h

/-- The function `startTransaction` leaves the status service in place. -/
theorem startTransaction_hasStatusService (E : Env) (hE : E.keepsStatusService) (s : Facade)
    (idTag : Option CStr) (onConf onAbort onTimeout onError : Callback) (timeout : Option Timeout)
    (h : s.hasStatusService) :
    (startTransaction E s idTag onConf onAbort onTimeout onError timeout).2.hasStatusService := by
  cases hengine : s.ocppEngine with
  | none =>
    have hr : (startTransaction E s idTag onConf onAbort onTimeout onError timeout).2 = s := by
      simp [startTransaction, hengine]
    rw [hr]; exact h
  | some engine =>
    cases idTag with
    | none =>
      have hr : (startTransaction E s none onConf onAbort onTimeout onError timeout).2 = s := by
        simp [startTransaction, hengine]
      rw [hr]; exact h
    | some t =>
      by_cases hc : strnlen t (E.IDTAG_LEN_MAX + 2) > E.IDTAG_LEN_MAX
      · have hr : (startTransaction E s (some t) onConf onAbort onTimeout onError timeout).2 = s := by
          simp [startTransaction, hengine, hc]
        rw [hr]; exact h
      · cases hconn : engine.model.getConnectorStatus OCPP_ID_OF_CONNECTOR with
        | none =>
          have hr : (startTransaction E s (some t) onConf onAbort onTimeout onError timeout).2 =
              s.record (Call.getConnectorStatus OCPP_ID_OF_CONNECTOR) := by
            simp [startTransaction, hengine, hc, hconn]
          rw [hr]; exact h
        | some connector =>
          cases htx : connector.transaction with
          | some tx =>
            cases hreq : (engine.model.transactions tx).startRequested with
            | true =>
              have hr : (startTransaction E s (some t) onConf onAbort onTimeout onError timeout).2 =
                  s.record (Call.getConnectorStatus OCPP_ID_OF_CONNECTOR) := by
                simp [startTransaction, hengine, hc, hconn, htx, hreq]
              rw [hr]; exact h
            | false =>
              have hr : (startTransaction E s (some t) onConf onAbort onTimeout onError timeout).2 =
                  Facade.initiateOperation E
                    { s.record (Call.getConnectorStatus OCPP_ID_OF_CONNECTOR) with
                      ocppEngine := some { engine with
                        model := engine.model.updateTransaction tx
                          (fun x => { x with idTag := some t }) } }
                    (configureOperation (makeOcppOperation (OcppMessage.StartTransaction tx))
                      onConf onAbort onTimeout onError timeout Timeout.SuppressedTimeout) := by
                simp [startTransaction, hengine, hc, hconn, htx, hreq]
              rw [hr]
              apply initiateOperation_hasStatusService E hE
              unfold Facade.hasStatusService at *
              rw [hengine] at h
              simpa [OcppModel.updateTransaction] using h
          | none =>
            have hst := startTransaction_no_transaction E s engine connector t onConf onAbort
              onTimeout onError timeout hengine hc hconn htx
            have hb := beginTransaction_hasStatusService E hE
              (s.record (Call.getConnectorStatus OCPP_ID_OF_CONNECTOR)) (some t)
              E.defaultConnectorId h
            generalize (beginTransaction E (s.record (Call.getConnectorStatus OCPP_ID_OF_CONNECTOR))
              (some t) E.defaultConnectorId).2 = s2 at hst hb
            cases hafter : s2.connectorTransaction OCPP_ID_OF_CONNECTOR with
            | none =>
              rw [hafter] at hst
              rw [hst]; exact hb
            | some tx =>
              rw [hafter] at hst
              rw [hst]
              exact initiateOperation_hasStatusService E hE s2 _ hb

/-- The function `stopTransaction` leaves the status service in place. -/
theorem stopTransaction_hasStatusService (E : Env) (hE : E.keepsStatusService) (s : Facade)
    (onConf onAbort onTimeout onError : Callback) (timeout : Option Timeout)
    (h : s.hasStatusService) :
    (stopTransaction E s onConf onAbort onTimeout onError timeout).2.hasStatusService := by
  cases hengine : s.ocppEngine with
  | none =>
    have hr : (stopTransaction E s onConf onAbort onTimeout onError timeout).2 = s := by
      simp [stopTransaction, hengine]
    rw [hr]; exact h
  | some engine =>
    cases hconn : engine.model.getConnectorStatus OCPP_ID_OF_CONNECTOR with
    | none =>
      have hr : (stopTransaction E s onConf onAbort onTimeout onError timeout).2 =
          s.record (Call.getConnectorStatus OCPP_ID_OF_CONNECTOR) := by
        simp [stopTransaction, hengine, hconn]
      rw [hr]; exact h
    | some connector =>
      cases htx : connector.transaction with
      | none =>
        have hr : (stopTransaction E s onConf onAbort onTimeout onError timeout).2 =
            s.record (Call.getConnectorStatus OCPP_ID_OF_CONNECTOR) := by
          simp [stopTransaction, hengine, hconn, htx]
        rw [hr]; exact h
      | some tx =>
        cases hrun : E.isRunning (engine.model.transactions tx) with
        | false =>
          have hr : (stopTransaction E s onConf onAbort onTimeout onError timeout).2 =
              s.record (Call.getConnectorStatus OCPP_ID_OF_CONNECTOR) := by
            simp [stopTransaction, hengine, hconn, htx, hrun]
          rw [hr]; exact h
        | true =>
          have hend : (E.endSession engine.model OCPP_ID_OF_CONNECTOR
              (some "Local".toList)).chargePointStatusService.isSome = true := by
            apply hE.2.2.2
            unfold Facade.hasStatusService at h
            rw [hengine] at h
            exact h
          unfold Facade.hasStatusService
          simp only [stopTransaction, hengine, hconn, htx, hrun, Facade.initiateOperation,
            Facade.record, Bool.not_true, Bool.false_eq_true, if_false]
          apply hE.2.1
          simp only [OcppModel.updateTransaction]
          split <;> exact hend

/-- Every facade call leaves the status service in place, where the other
classes do. -/
theorem step_hasStatusService (E : Env) (hE : E.keepsStatusService) (s : Facade) (c : FacadeCall)
    (h : s.hasStatusService) : (step E s c).hasStatusService := by
  cases c
  case startTransaction =>
    exact startTransaction_hasStatusService E hE s _ _ _ _ _ _ h
  case stopTransaction =>
    exact stopTransaction_hasStatusService E hE s _ _ _ _ _ h
  case beginTransaction =>
    exact beginTransaction_hasStatusService E hE s _ _ h
  case setConnectorPluggedInput => exact withConnector_hasStatusService s _ _ h
  case setEvReadyInput => exact withConnector_hasStatusService s _ _ h
  case setEvseReadyInput => exact withConnector_hasStatusService s _ _ h
  case addErrorCodeInput => exact withConnector_hasStatusService s _ _ h
  case setOnUnlockConnectorInOut => exact withConnector_hasStatusService s _ _ h
  case setConnectorLockInOut => exact withConnector_hasStatusService s _ _ h
  case setTxBasedMeterInOut => exact withConnector_hasStatusService s _ _ h
  case OCPP_deinitialize => simp [step, OCPP_deinitialize, Facade.hasStatusService]
  all_goals
    simp only [step, OCPP_initialize, OCPP_loop, bootNotification, bootNotification_payload,
      authorize, endTransaction, isTransactionRunning, ocppPermitsCharge,
      setEnergyMeterInput, setPowerMeterInput, setSmartChargingOutput, addMeterValueInput,
      addMeterValueInput_sampler, setOnResetNotify, setOnResetExecute, isOperative,
      getTransactionId, getTransactionIdTag, getOcppEngine, setOnSetChargingProfileRequest,
      setOnRemoteStartTransactionSendConf, setOnRemoteStopTransactionReceiveReq,
      setOnRemoteStopTransactionSendConf, setOnResetSendConf, setOnResetRequest,
      withStatusService, Facade.initiateOperation]
    repeat' split
    all_goals simp_all [Facade.hasStatusService, Facade.record]
    all_goals first
      | exact hE.1 _ h
      | exact hE.2.1 _ _ h
      | exact hE.2.2.2 _ _ _ h
      | (have hloop := hE.1 _ h; simp_all)

/-- Every sequence of facade calls from the initial state leaves a facade whose
engine, if there is one, has the status service: `OCPP_initialize` installs it
and no facade function takes it out. -/
theorem run_hasStatusService (E : Env) (hE : E.keepsStatusService) (calls : List FacadeCall) :
    ∀ s : Facade, s.hasStatusService → (run E s calls).hasStatusService := by
  induction calls with
  | nil => intro s h; exact h
  | cons c cs ih => intro s h; exact ih (step E s c) (step_hasStatusService E hE s c h)

/-- In every state reached from the initial state by facade calls, an
initialised engine has the charge point status service when `OCPP_loop` reads
it, after the tick of the engine. -/
theorem reachable_statusService (E : Env) (hE : E.keepsStatusService) (calls : List FacadeCall)
    (engine : OcppEngine) (hengine : (run E Facade.initial calls).ocppEngine = some engine) :
    ∃ csService, (E.loop engine).model.chargePointStatusService = some csService := by
  have h := run_hasStatusService E hE calls Facade.initial trivial
  unfold Facade.hasStatusService at h
  rw [hengine] at h
  exact Option.isSome_iff_exists.1 (hE.1 engine h)

/-- The hand-over of `bootNotification` with a payload: with an engine, the
engine it leaves is the one `initiateOperation` returns for the old engine and
the configured BootNotification Operation. -/
theorem bootNotification_payload_handover (E : Env) (s : Facade) (engine : OcppEngine)
    (payload : Option (List (String × CStr)))
    (onConf onAbort onTimeout onError : Callback) (timeout : Option Timeout)
    (hengine : s.ocppEngine = some engine) :
    handedOver E engine
      (configureOperation (makeOcppOperation (OcppMessage.BootNotification payload))
        onConf onAbort onTimeout onError timeout Timeout.SuppressedTimeout)
      (bootNotification_payload E s payload onConf onAbort onTimeout onError timeout) := by
  simp [handedOver, bootNotification_payload, hengine, Facade.initiateOperation, Facade.record]

/-- The hand-over of `authorize`: with an engine and a valid idTag, the engine
it leaves is the one `initiateOperation` returns for the old engine and the
configured Authorize Operation. -/
theorem authorize_handover (E : Env) (s : Facade) (engine : OcppEngine) (t : CStr)
    (onConf onAbort onTimeout onError : Callback) (timeout : Option Timeout)
    (hengine : s.ocppEngine = some engine) (hlen : t.length ≤ E.IDTAG_LEN_MAX) :
    handedOver E engine
      (configureOperation (makeOcppOperation (OcppMessage.Authorize t))
        onConf onAbort onTimeout onError timeout (Timeout.FixedTimeout 20000))
      (authorize E s (some t) onConf onAbort onTimeout onError timeout) := by
  simp [handedOver, authorize, hengine, strnlen_check_valid _ t hlen, Facade.record]

/-- The hand-over of `startTransaction`: where it returns true, the engine it
leaves is the one `initiateOperation` returns for the configured
StartTransaction Operation and the engine before the hand-over, which is the
old engine with the idTag of the existing Transaction set, or the engine that
`beginTransaction` left. -/
theorem startTransaction_handover (E : Env) (s : Facade) (idTag : Option CStr)
    (onConf onAbort onTimeout onError : Callback) (timeout : Option Timeout)
    (hr : (startTransaction E s idTag onConf onAbort onTimeout onError timeout).1 = true) :
    ∃ e1 tx,
      handedOver E e1
        (configureOperation (makeOcppOperation (OcppMessage.StartTransaction tx))
          onConf onAbort onTimeout onError timeout Timeout.SuppressedTimeout)
        (startTransaction E s idTag onConf onAbort onTimeout onError timeout).2
      ∧ initiatedOperations
          (newCalls s (startTransaction E s idTag onConf onAbort onTimeout onError timeout).2) =
          [configureOperation (makeOcppOperation (OcppMessage.StartTransaction tx))
            onConf onAbort onTimeout onError timeout Timeout.SuppressedTimeout]
      ∧ ((∃ engine t, s.ocppEngine = some engine ∧ idTag = some t
            ∧ e1 = { engine with
                      model := engine.model.updateTransaction tx (fun x => { x with idTag := some t }) })
          ∨ (beginTransaction E s idTag E.defaultConnectorId).2.ocppEngine = some e1) := by
  cases hengine : s.ocppEngine with
  | none => simp [startTransaction, hengine] at hr
  | some engine =>
    cases idTag with
    | none => simp [startTransaction, hengine] at hr
    | some t =>
      by_cases hc : strnlen t (E.IDTAG_LEN_MAX + 2) > E.IDTAG_LEN_MAX
      · simp [startTransaction, hengine, hc] at hr
      · cases hconn : engine.model.getConnectorStatus OCPP_ID_OF_CONNECTOR with
        | none => simp [startTransaction, hengine, hc, hconn] at hr
        | some connector =>
          cases htx : connector.transaction with
          | some tx =>
            cases hreq : (engine.model.transactions tx).startRequested with
            | true => simp [startTransaction, hengine, hc, hconn, htx, hreq] at hr
            | false =>
              have hcalls : (startTransaction E s (some t) onConf onAbort onTimeout onError
                  timeout).2.calls = s.calls ++ [Call.getConnectorStatus OCPP_ID_OF_CONNECTOR,
                    Call.initiateOperation
                      (configureOperation (makeOcppOperation (OcppMessage.StartTransaction tx))
                        onConf onAbort onTimeout onError timeout Timeout.SuppressedTimeout)] := by
                simp [startTransaction, hengine, hc, hconn, htx, hreq, Facade.initiateOperation,
                  Facade.record]
              refine ⟨_, tx, ?_, ?_, Or.inl ⟨engine, t, rfl, rfl, rfl⟩⟩
              · simp [handedOver, startTransaction, hengine, hc, hconn, htx, hreq,
                  Facade.initiateOperation, Facade.record]
              · rw [newCalls_append s _ _ hcalls]
                rfl
          | none =>
            have hst := startTransaction_no_transaction E s engine connector t onConf onAbort
              onTimeout onError timeout hengine hc hconn htx
            have hsome := beginTransaction_engine_isSome E
              (s.record (Call.getConnectorStatus OCPP_ID_OF_CONNECTOR)) (some t) E.defaultConnectorId
              (by simp [Facade.record, hengine])
            obtain ⟨added, hadd, hops⟩ := beginTransaction_calls E
              (s.record (Call.getConnectorStatus OCPP_ID_OF_CONNECTOR)) (some t) E.defaultConnectorId
            obtain ⟨engine2, hengine2⟩ := Option.isSome_iff_exists.1 hsome
            have hpin : (beginTransaction E s (some t) E.defaultConnectorId).2.ocppEngine =
                some engine2 := by
              rw [← beginTransaction_record_engine E s (Call.getConnectorStatus OCPP_ID_OF_CONNECTOR)]
              exact hengine2
            generalize (beginTransaction E (s.record (Call.getConnectorStatus OCPP_ID_OF_CONNECTOR))
                (some t) E.defaultConnectorId).2 = s2 at hst hadd hengine2
            cases hafter : s2.connectorTransaction OCPP_ID_OF_CONNECTOR with
            | none =>
              rw [hafter] at hst
              rw [hst] at hr
              cases hr
            | some tx =>
              rw [hafter] at hst
              have hcalls : (startTransaction E s (some t) onConf onAbort onTimeout onError
                  timeout).2.calls = s.calls ++ (Call.getConnectorStatus OCPP_ID_OF_CONNECTOR ::
                    (added ++ [Call.initiateOperation
                      (configureOperation (makeOcppOperation (OcppMessage.StartTransaction tx))
                        onConf onAbort onTimeout onError timeout Timeout.SuppressedTimeout)])) := by
                rw [hst]
                simp [Facade.initiateOperation, hengine2, hadd, Facade.record]
              refine ⟨engine2, tx, ?_, ?_, Or.inr hpin⟩
              · rw [hst]
                simp [handedOver, Facade.initiateOperation, hengine2, Facade.record]
              · rw [newCalls_append s _ _ hcalls]
                have h1 := initiatedOperations_append
                  (Call.getConnectorStatus OCPP_ID_OF_CONNECTOR :: added) [Call.initiateOperation
                    (configureOperation (makeOcppOperation (OcppMessage.StartTransaction tx))
                      onConf onAbort onTimeout onError timeout Timeout.SuppressedTimeout)]
                rw [List.cons_append] at h1
                rw [h1]
                have h2 := initiatedOperations_append [Call.getConnectorStatus OCPP_ID_OF_CONNECTOR] added
                rw [List.singleton_append] at h2
                rw [h2, hops]
                rfl

/-- The hand-over of `stopTransaction`: where it returns true, the engine it
leaves is the one `initiateOperation` returns for the configured
StopTransaction Operation and the old engine with the model that `endSession`
left, but for the Transactions. -/
theorem stopTransaction_handover (E : Env) (s : Facade)
    (onConf onAbort onTimeout onError : Callback) (timeout : Option Timeout)
    (hr : (stopTransaction E s onConf onAbort onTimeout onError timeout).1 = true) :
    ∃ engine final tx, s.ocppEngine = some engine
      ∧ handedOver E { engine with model := final }
        (configureOperation (makeOcppOperation (OcppMessage.StopTransaction tx))
          onConf onAbort onTimeout onError timeout Timeout.SuppressedTimeout)
        (stopTransaction E s onConf onAbort onTimeout onError timeout).2
      ∧ initiatedOperations
          (newCalls s (stopTransaction E s onConf onAbort onTimeout onError timeout).2) =
          [configureOperation (makeOcppOperation (OcppMessage.StopTransaction tx))
            onConf onAbort onTimeout onError timeout Timeout.SuppressedTimeout]
      ∧ final = { E.endSession engine.model OCPP_ID_OF_CONNECTOR (some "Local".toList) with
                  transactions := final.transactions } := by
  cases hengine : s.ocppEngine with
  | none => simp [stopTransaction, hengine] at hr
  | some engine =>
    cases hconn : engine.model.getConnectorStatus OCPP_ID_OF_CONNECTOR with
    | none => simp [stopTransaction, hengine, hconn] at hr
    | some connector =>
      cases htx : connector.transaction with
      | none => simp [stopTransaction, hengine, hconn, htx] at hr
      | some tx =>
        cases hrun : E.isRunning (engine.model.transactions tx) with
        | false => simp [stopTransaction, hengine, hconn, htx, hrun] at hr
        | true =>
          have hcalls : (stopTransaction E s onConf onAbort onTimeout onError timeout).2.calls =
              s.calls ++ [Call.getConnectorStatus OCPP_ID_OF_CONNECTOR,
                Call.endSession OCPP_ID_OF_CONNECTOR (some "Local".toList),
                Call.initiateOperation
                  (configureOperation (makeOcppOperation (OcppMessage.StopTransaction tx))
                    onConf onAbort onTimeout onError timeout Timeout.SuppressedTimeout)] := by
            simp [stopTransaction, hengine, hconn, htx, hrun, Facade.initiateOperation,
              Facade.record]
          refine ⟨engine, OcppModel.updateTransaction
            (match ((E.endSession engine.model OCPP_ID_OF_CONNECTOR (some "Local".toList)).transactions tx).idTag with
              | some idTag =>
                (E.endSession engine.model OCPP_ID_OF_CONNECTOR (some "Local".toList)).updateTransaction tx
                  (fun x => { x with stopIdTag := some idTag })
              | none => E.endSession engine.model OCPP_ID_OF_CONNECTOR (some "Local".toList))
            tx (fun x => { x with stopReason := some "Local".toList }), tx, rfl, ?_, ?_, ?_⟩
          · simp [handedOver, stopTransaction, hengine, hconn, htx, hrun, Facade.initiateOperation,
              Facade.record]
          · rw [newCalls_append s _ _ hcalls]
            rfl
          · cases h : ((E.endSession engine.model OCPP_ID_OF_CONNECTOR
                (some "Local".toList)).transactions tx).idTag <;>
              simp [OcppModel.updateTransaction, h]

/-- C13: the Operations that `bootNotification`, `authorize`, `startTransaction`
and `stopTransaction` hand to the engine carry the timeout policy of the caller
where one is supplied; where none is supplied, those of `authorize` carry
`FixedTimeout(20000)` and those of `bootNotification`, `startTransaction` and
`stopTransaction` carry `SuppressedTimeout`.  The hand-over is the call of
`initiateOperation` on the engine: `bootNotification` with an engine,
`authorize` with moreover a valid idTag, and `startTransaction` and
`stopTransaction` where they return true leave the engine that
`initiateOperation` returns for exactly one Operation, the one in the log, with
that timeout. -/
theorem operation_timeout_policy (E : Env) (s : Facade)
    (onConf onAbort onTimeout onError : Callback) :
    (∀ t : Timeout,
      (∀ m v, carryTimeout (handedOperations s
          (bootNotification E s m v onConf onAbort onTimeout onError (some t))) t)
      ∧ (∀ p, carryTimeout (handedOperations s
          (bootNotification_payload E s p onConf onAbort onTimeout onError (some t))) t)
      ∧ (∀ idTag, carryTimeout (handedOperations s
          (authorize E s idTag onConf onAbort onTimeout onError (some t))) t)
      ∧ (∀ idTag, carryTimeout (handedOperations s
          (startTransaction E s idTag onConf onAbort onTimeout onError (some t)).2) t)
      ∧ carryTimeout (handedOperations s
          (stopTransaction E s onConf onAbort onTimeout onError (some t)).2) t)
    ∧ (∀ m v, carryTimeout (handedOperations s
        (bootNotification E s m v onConf onAbort onTimeout onError none)) Timeout.SuppressedTimeout)
    ∧ (∀ p, carryTimeout (handedOperations s
        (bootNotification_payload E s p onConf onAbort onTimeout onError none))
        Timeout.SuppressedTimeout)
    ∧ (∀ idTag, carryTimeout (handedOperations s
        (authorize E s idTag onConf onAbort onTimeout onError none)) (Timeout.FixedTimeout 20000))
    ∧ (∀ idTag, carryTimeout (handedOperations s
        (startTransaction E s idTag onConf onAbort onTimeout onError none).2)
        Timeout.SuppressedTimeout)
    ∧ carryTimeout (handedOperations s
        (stopTransaction E s onConf onAbort onTimeout onError none).2) Timeout.SuppressedTimeout
    ∧ (∀ engine, s.ocppEngine = some engine → ∀ timeout m v, ∃ op,
        handedOperations s
          (bootNotification E s m v onConf onAbort onTimeout onError timeout) = [op]
        ∧ handedOver E engine op
          (bootNotification E s m v onConf onAbort onTimeout onError timeout)
        ∧ op.message = OcppMessage.BootNotification
            (some [("chargePointModel", m), ("chargePointVendor", v)])
        ∧ op.timeout = some (timeout.getD Timeout.SuppressedTimeout))
    ∧ (∀ engine, s.ocppEngine = some engine → ∀ timeout p, ∃ op,
        handedOperations s
          (bootNotification_payload E s p onConf onAbort onTimeout onError timeout) = [op]
        ∧ handedOver E engine op
          (bootNotification_payload E s p onConf onAbort onTimeout onError timeout)
        ∧ op.message = OcppMessage.BootNotification p
        ∧ op.timeout = some (timeout.getD Timeout.SuppressedTimeout))
    ∧ (∀ engine, s.ocppEngine = some engine → ∀ timeout t, t.length ≤ E.IDTAG_LEN_MAX → ∃ op,
        handedOperations s
          (authorize E s (some t) onConf onAbort onTimeout onError timeout) = [op]
        ∧ handedOver E engine op
          (authorize E s (some t) onConf onAbort onTimeout onError timeout)
        ∧ op.message = OcppMessage.Authorize t
        ∧ op.timeout = some (timeout.getD (Timeout.FixedTimeout 20000)))
    ∧ (∀ timeout idTag,
        (startTransaction E s idTag onConf onAbort onTimeout onError timeout).1 = true →
        ∃ e1 tx op,
          handedOperations s
            (startTransaction E s idTag onConf onAbort onTimeout onError timeout).2 = [op]
          ∧ handedOver E e1 op
            (startTransaction E s idTag onConf onAbort onTimeout onError timeout).2
          ∧ op.message = OcppMessage.StartTransaction tx
          ∧ op.timeout = some (timeout.getD Timeout.SuppressedTimeout)
          ∧ ((∃ engine t, s.ocppEngine = some engine ∧ idTag = some t
                ∧ e1 = { engine with
                          model := engine.model.updateTransaction tx
                            (fun x => { x with idTag := some t }) })
              ∨ (beginTransaction E s idTag E.defaultConnectorId).2.ocppEngine = some e1))
    ∧ (∀ timeout,
        (stopTransaction E s onConf onAbort onTimeout onError timeout).1 = true →
        ∃ engine final tx op, s.ocppEngine = some engine
          ∧ handedOperations s
            (stopTransaction E s onConf onAbort onTimeout onError timeout).2 = [op]
          ∧ handedOver E { engine with model := final } op
            (stopTransaction E s onConf onAbort onTimeout onError timeout).2
          ∧ op.message = OcppMessage.StopTransaction tx
          ∧ op.timeout = some (timeout.getD Timeout.SuppressedTimeout)
          ∧ final = { E.endSession engine.model OCPP_ID_OF_CONNECTOR (some "Local".toList) with
                      transactions := final.transactions }) := by
  have hsome := fun t => handedOperations_timeout E s onConf onAbort onTimeout onError (some t)
  have hnone := handedOperations_timeout E s onConf onAbort onTimeout onError none
  refine ⟨fun t => ⟨?_, (hsome t).1, (hsome t).2.1, (hsome t).2.2.1, (hsome t).2.2.2⟩,
    ?_, hnone.1, hnone.2.1, hnone.2.2.1, hnone.2.2.2, ?_, ?_, ?_, ?_, ?_⟩
  · intro m v
    rw [bootNotification_eq_payload]
    exact (hsome t).1 _
  · intro m v
    rw [bootNotification_eq_payload]
    exact hnone.1 _
  · intro engine hengine timeout m v
    rw [bootNotification_eq_payload]
    refine ⟨_, ?_, bootNotification_payload_handover E s engine _ onConf onAbort onTimeout onError
      timeout hengine, configureOperation_message _ _ _ _ _ _ _,
      configureOperation_timeout _ _ _ _ _ _ _⟩
    unfold handedOperations
    rw [bootNotification_payload_log, hengine]
    rfl
  · intro engine hengine timeout p
    refine ⟨_, ?_, bootNotification_payload_handover E s engine p onConf onAbort onTimeout onError
      timeout hengine, configureOperation_message _ _ _ _ _ _ _,
      configureOperation_timeout _ _ _ _ _ _ _⟩
    unfold handedOperations
    rw [bootNotification_payload_log, hengine]
    rfl
  · intro engine hengine timeout t hlen
    refine ⟨_, ?_, authorize_handover E s engine t onConf onAbort onTimeout onError timeout
      hengine hlen, configureOperation_message _ _ _ _ _ _ _,
      configureOperation_timeout _ _ _ _ _ _ _⟩
    unfold handedOperations
    rcases authorize_log E s (some t) onConf onAbort onTimeout onError timeout with
      ⟨t', ht', _, _, h⟩ | ⟨hbad, _⟩
    · cases ht'
      exact h
    · rcases hbad with hn | hn | ⟨t', ht', hlong⟩
      · rw [hn] at hengine
        cases hengine
      · cases hn
      · cases ht'
        omega
  · intro timeout idTag hr
    obtain ⟨e1, tx, hover, hops, hpin⟩ :=
      startTransaction_handover E s idTag onConf onAbort onTimeout onError timeout hr
    exact ⟨e1, tx, _, hops, hover, configureOperation_message _ _ _ _ _ _ _,
      configureOperation_timeout _ _ _ _ _ _ _, hpin⟩
  · intro timeout hr
    obtain ⟨engine, final, tx, hengine, hover, hops, hfinal⟩ :=
      stopTransaction_handover E s onConf onAbort onTimeout onError timeout hr
    exact ⟨engine, final, tx, _, hengine, hops, hover, configureOperation_message _ _ _ _ _ _ _,
      configureOperation_timeout _ _ _ _ _ _ _, hfinal⟩

/-- C13 at concrete inputs: after `OCPP_initialize`, the engine registers the
Operations handed to it.  After `authorize` without a timeout it holds one
Operation with `FixedTimeout(20000)`; after `authorize` with the timeout
`FixedTimeout(5000)`, one with that timeout; after `bootNotification` without a
timeout, one with `SuppressedTimeout`; after a `stopTransaction` that returns
true, the Operation of the earlier `startTransaction` and one more with
`SuppressedTimeout`. -/
theorem operation_timeout_policy_witness :
    ready.ocppEngine = some readyEngine
    ∧ abc123.length ≤ env.IDTAG_LEN_MAX
    ∧ (authorize env ready (some abc123) none none none none none).ocppEngine.map
        (fun e => e.operations.map (fun op => op.timeout)) =
        some [some (Timeout.FixedTimeout 20000)]
    ∧ (authorize env ready (some abc123) none none none none
        (some (Timeout.FixedTimeout 5000))).ocppEngine.map
        (fun e => e.operations.map (fun op => op.timeout)) =
        some [some (Timeout.FixedTimeout 5000)]
    ∧ (bootNotification env ready abc123 abc123 none none none none none).ocppEngine.map
        (fun e => e.operations.map (fun op => op.timeout)) =
        some [some Timeout.SuppressedTimeout]
    ∧ (stopTransaction env started none none none none none).1 = true
    ∧ (stopTransaction env started none none none none none).2.ocppEngine.map
        (fun e => e.operations.map (fun op => op.timeout)) =
        some [some Timeout.SuppressedTimeout, some Timeout.SuppressedTimeout] := by
  have h := operation_timeout_policy env ready none none none none
  have h' := operation_timeout_policy env started none none none none
  refine ⟨rfl, by decide, ?_, ?_, ?_, rfl, ?_⟩
  · obtain ⟨op, _, hover, _, ht⟩ := h.2.2.2.2.2.2.2.2.1 readyEngine rfl none abc123 (by decide)
    unfold handedOver at hover
    rw [hover]
    show some ((readyEngine.operations ++ [op]).map (fun op => op.timeout)) = _
    rw [List.map_append, List.map_singleton, ht]
    rfl
  · obtain ⟨op, _, hover, _, ht⟩ := h.2.2.2.2.2.2.2.2.1 readyEngine rfl
      (some (Timeout.FixedTimeout 5000)) abc123 (by decide)
    unfold handedOver at hover
    rw [hover]
    show some ((readyEngine.operations ++ [op]).map (fun op => op.timeout)) = _
    rw [List.map_append, List.map_singleton, ht]
    rfl
  · obtain ⟨op, _, hover, _, ht⟩ := h.2.2.2.2.2.2.1 readyEngine rfl none abc123 abc123
    unfold handedOver at hover
    rw [hover]
    show some ((readyEngine.operations ++ [op]).map (fun op => op.timeout)) = _
    rw [List.map_append, List.map_singleton, ht]
    rfl
  · obtain ⟨engine, final, tx, op, hengine, _, hover, _, ht, _⟩ :=
      h'.2.2.2.2.2.2.2.2.2.2 none rfl
    have he : engine = startedEngine := (Option.some.inj hengine).symm
    subst he
    unfold handedOver at hover
    rw [hover]
    show some ((startedEngine.operations ++ [op]).map (fun op => op.timeout)) = _
    rw [List.map_append, List.map_singleton, ht]
    rfl


end Theorems

end ArduinoOcpp
